import Mathlib

/-!
Verification development for the Recall-Script repository.

The definitions below are a shallow embedding of the server pipeline
(processExcelFile, scrapeVinData, createOutputExcel and the /compare route)
together with the orchestration-relevant behaviour of scraper/fordScraper.js.
Spreadsheet cells are modelled as strings or integers, JavaScript Maps as
association lists with replace-or-append update, and the two external lookup
collaborators (FordScraper.scrapeVinRecallData, DocSearchScraper.searchVinData)
as oracles supplied to the orchestrator, exactly at the call boundary the
server code uses them.
-/

set_option maxHeartbeats 4000000
set_option maxRecDepth 4000

namespace RecallScript

/-- A spreadsheet cell value as decoded by XLSX.utils.sheet_to_json: a string
or a number.  Numbers are modelled as integers (the claims under study involve
whole-day Excel serial dates only). -/
inductive Cell
  | str (s : String)
  | num (n : Int)
  deriving DecidableEq

/-- JavaScript truthiness of a cell value: the empty string and 0 are falsy. -/
def cellTruthy : Cell → Bool
  | .str s => s != ""
  | .num n => n != 0

/-- JavaScript `value.toString()` for a cell. -/
def cellToString : Cell → String
  | .str s => s
  | .num n => toString n

/-- A decoded spreadsheet row: an ordered association of column name to cell,
modelling the plain object produced by sheet_to_json (keys unique). -/
def Row : Type := List (String × Cell)

instance : DecidableEq Row := by
  unfold Row
  infer_instance

/-- JavaScript `row[key] || fallback` style access: `some c` iff the key is
present. -/
def rowGet (row : Row) (key : String) : Option Cell :=
  List.lookup key row

/-- JavaScript `String.prototype.trim` (whitespace stripped from both ends),
implemented over the character list so that proofs can evaluate it. -/
def strTrim (s : String) : String :=
  String.mk (((s.data.dropWhile Char.isWhitespace).reverse.dropWhile
    Char.isWhitespace).reverse)

/-- JavaScript `String.prototype.toUpperCase` (ASCII). -/
def strUpper (s : String) : String :=
  String.mk (s.data.map Char.toUpper)

/-- JavaScript `String.prototype.toLowerCase` (ASCII). -/
def strLower (s : String) : String :=
  String.mk (s.data.map Char.toLower)

/-- `split('/')` over a character list, keeping empty parts. -/
def splitSlash : List Char → List (List Char)
  | [] => [[]]
  | c :: rest =>
    let r := splitSlash rest
    if c == '/' then [] :: r
    else
      match r with
      | [] => [[c]]
      | h :: t => (c :: h) :: t

/-- Insertion step of the sort modelling JavaScript `Array.prototype.sort`
(any comparison sort is a faithful model; only the ordering contract is
specified). -/
def sortInsert {α : Type} (le : α → α → Bool) (x : α) : List α → List α
  | [] => [x]
  | y :: ys => if le x y then x :: y :: ys else y :: sortInsert le x ys

/-- The sort modelling `Array.prototype.sort(comparator)`. -/
def jsSort {α : Type} (le : α → α → Bool) : List α → List α
  | [] => []
  | x :: xs => sortInsert le x (jsSort le xs)

/-- The character class `[A-HJ-NPR-Z0-9]` of the VIN validation regex:
digits and uppercase letters excluding I, O and Q. -/
def isVinChar (c : Char) : Bool :=
  (('0' ≤ c && c ≤ '9') || ('A' ≤ c && c ≤ 'Z')) && c != 'I' && c != 'O' && c != 'Q'

/-- `value.length === 17 && /^[A-HJ-NPR-Z0-9]{17}$/.test(value)` from
processExcelFile. -/
def isValidVin (s : String) : Bool :=
  s.length == 17 && s.data.all isVinChar

/-- The fixed priority list of candidate VIN column names (auto mode). -/
def vinKeys : List String := ["SERIAL NO", "VIN", "vin", "Vin", "VIN NO"]

/-- First candidate column holding a truthy value whose trimmed string is a
valid VIN.  Non-VIN truthy values are only logged by the source and skipped. -/
def vinFromKeys (row : Row) : Option String :=
  vinKeys.findSome? fun key =>
    match rowGet row key with
    | some c =>
      if cellTruthy c then
        let v := strTrim (cellToString c)
        if isValidVin v then some v else none
      else none
    | none => none

/-- Fallback whole-row scan: any column whose truthy value trims to a valid
VIN. -/
def vinFromScan (row : Row) : Option String :=
  row.findSome? fun kv =>
    if cellTruthy kv.2 then
      let v := strTrim (cellToString kv.2)
      if isValidVin v then some v else none
    else none

/-- VIN auto-detection for one row (processExcelFile, auto branch). -/
def rowVinAuto (row : Row) : Option String :=
  (vinFromKeys row).orElse fun _ => vinFromScan row

/-- Days since 1970-01-01 of the Gregorian date y-m-d (1 ≤ m ≤ 12); the
standard civil-calendar algorithm, linear in d so day overflow normalises the
way the ECMAScript Date constructor does. -/
def daysFromCivil (y m d : Int) : Int :=
  let y' := if m ≤ 2 then y - 1 else y
  let era := y'.fdiv 400
  let yoe := y' - era * 400
  let mp := if 2 < m then m - 3 else m + 9
  let doy := (153 * mp + 2).fdiv 5 + d - 1
  let doe := yoe * 365 + yoe.fdiv 4 - yoe.fdiv 100 + doy
  era * 146097 + doe - 719468

/-- Millisecond value of `new Date(year, monthIndex, day).getTime()`: month
overflow is carried into the year, day arithmetic is linear.  The constant
local-timezone offset is omitted; it shifts every modelled timestamp equally,
so every date comparison made by the source is preserved. -/
def jsDateMs (year monthIndex day : Int) : Int :=
  let y := year + monthIndex.fdiv 12
  let m := monthIndex.emod 12 + 1
  (daysFromCivil y m 1 + (day - 1)) * 86400000

/-- `new Date(1899, 11, 30).getTime()`, the Excel serial epoch used by
parseDate. -/
def excelEpochMs : Int := jsDateMs 1899 11 30

/-- Decimal value of a digit string. -/
def digitsVal (s : List Char) : Int :=
  s.foldl (fun a c => a * 10 + ((c.toNat : Int) - ('0'.toNat : Int))) 0

/-- Does the character list consist of `minLen` to `maxLen` decimal digits? -/
def isDigits (s : List Char) (minLen maxLen : Nat) : Bool :=
  minLen ≤ s.length && s.length ≤ maxLen && s.all Char.isDigit

/-- The regex `^(\d{1,2})\/(\d{1,2})\/(\d{4})$` of parseDate, returning the
three captured numbers (month, day, year). -/
def parseMDY (s : String) : Option (Int × Int × Int) :=
  match splitSlash s.data with
  | [ms, ds, ys] =>
    if isDigits ms 1 2 && isDigits ds 1 2 && isDigits ys 4 4 then
      some (digitsVal ms, digitsVal ds, digitsVal ys)
    else none
  | _ => none

/-- parseDate from processExcelFile.  `hostParse` models the final fallback
`new Date(strValue)` whose accepted formats are host-defined (the claims under
study never depend on it; witnesses instantiate it with `fun _ => none`). -/
def parseDate (hostParse : String → Option Int) : Cell → Option Int
  | .num n =>
    if n == 0 then none    -- `if (!dateValue) return null`
    else some (excelEpochMs + n * 86400000)
  | .str s =>
    if s == "" then none   -- `if (!dateValue) return null`
    else
      let sv := strTrim s
      if sv == "" then none
      else
        match parseMDY sv with
        | some (mo, d, y) => some (jsDateMs y (mo - 1) d)  -- month is 0-indexed
        | none => hostParse sv

/-- Whitespace-run collapsing used with toUpperCase in the source
(`.toUpperCase().replace(/\s+/g, ' ')`); the flag records whether the previous
character was whitespace. -/
def squashWs : Bool → List Char → List Char
  | _, [] => []
  | prevWs, c :: rest =>
    if c.isWhitespace then
      if prevWs then squashWs true rest else ' ' :: squashWs true rest
    else c :: squashWs false rest

/-- `key.toUpperCase().replace(/\s+/g, ' ')` from getDateFromRow. -/
def upperCollapse (s : String) : String :=
  String.mk (squashWs false (strUpper s).data)

/-- Is `needle` a prefix of the character list? -/
def charsStartWith : List Char → List Char → Bool
  | [], _ => true
  | _ :: _, [] => false
  | a :: as, b :: bs => a == b && charsStartWith as bs

/-- JavaScript `hay.includes(needle)` (substring containment). -/
def containsSubstr (hay needle : String) : Bool :=
  hay.data.tails.any fun t => charsStartWith needle.data t

/-- The date-column alias list of getDateFromRow. -/
def dateColumnKeys : List String :=
  ["DATETIME OPEN", "DATETIME_OPEN", "DATE TIME OPEN", "DATE_TIME_OPEN"]

/-- getDateFromRow: first the fixed aliases (truthy cell whose parse succeeds),
then a scan for any column whose collapsed upper-case name contains both
DATETIME and OPEN.  Only the parsed date matters downstream; the column name
returned by the source is used for logging alone. -/
def getDateFromRow (hostParse : String → Option Int) (row : Row) : Option Int :=
  (dateColumnKeys.findSome? fun key =>
    match rowGet row key with
    | some c => if cellTruthy c then parseDate hostParse c else none
    | none => none).orElse fun _ =>
  row.findSome? fun kv =>
    let uk := upperCollapse kv.1
    if containsSubstr uk "DATETIME" && containsSubstr uk "OPEN" then
      parseDate hostParse kv.2
    else none

/-- One retained occurrence of a VIN: the stored `{ vin, originalRow, dateInfo }`
object of the vinMap. -/
structure VinEntry where
  vin : String
  originalRow : Row
  dateInfo : Option Int
  deriving DecidableEq

/-- JavaScript `Map.prototype.set`: replace the value of an existing key in
place, else append. -/
def jsMapSet {α : Type} (m : List (String × α)) (k : String) (v : α) :
    List (String × α) :=
  if m.any (fun kv => kv.1 == k) then
    m.map fun kv => if kv.1 == k then (k, v) else kv
  else m ++ [(k, v)]

/-- One step of the duplicate-VIN fold of processExcelFile (auto branch,
lines 504-538): keep the row with the later parsed date, a dated row over an
undated one, and the first-seen row when neither has a date. -/
def dedupStep (hostParse : String → Option Int)
    (m : List (String × VinEntry)) (row : Row) : List (String × VinEntry) :=
  match rowVinAuto row with
  | none => m
  | some vin =>
    let dateInfo := getDateFromRow hostParse row
    match List.lookup vin m with
    | some existing =>
      match dateInfo, existing.dateInfo with
      | some cur, some ex =>
        if ex < cur then jsMapSet m vin ⟨vin, row, dateInfo⟩ else m
      | some _, none => jsMapSet m vin ⟨vin, row, dateInfo⟩
      | none, some _ => m
      | none, none => m
    | none => m ++ [(vin, ⟨vin, row, dateInfo⟩)]

/-- The vinMap after processing all rows. -/
def vinMapOf (hostParse : String → Option Int) (rows : List Row) :
    List (String × VinEntry) :=
  rows.foldl (dedupStep hostParse) []

/-- The extracted vinNumbers array: `{ vin, originalRow }` per retained map
entry, in insertion order. -/
def extractVinsAuto (hostParse : String → Option Int) (rows : List Row) :
    List (String × Row) :=
  (vinMapOf hostParse rows).map fun kv => (kv.2.vin, kv.2.originalRow)

/-! ### Pipeline data model (scrapeVinData) -/

/-- The first sentinel string for a VIN without recall information. -/
def placeholder1 : String := "No recall information"

/-- The second sentinel string for a VIN without recall information. -/
def placeholder2 : String := "No recall information available"

/-- One recall/campaign entry as produced by the Ford scraper
(`{ recallNumber, type, ... }`); `rtype` is the `type` field, absent values
default to "Recall" downstream. -/
structure RecallEntry where
  recallNumber : String
  rtype : Option String
  deriving DecidableEq

/-- A DocSearch lookup result as stored by scrapeVinData (both the value
resolved by searchVinData and the error object built in the catch branch have
this shape). -/
structure EaInfo where
  recallNumber : String
  success : Bool
  error : Option String
  eaExists : Bool
  eaNumber : Option String
  deriving DecidableEq

/-- The fordData attached to a VIN result: `success`, `error` and
`recallData.recalls` (the timestamp fields are irrelevant to the claims). -/
structure FordData where
  success : Bool
  error : Option String
  recallData : Option (List RecallEntry)
  deriving DecidableEq

/-- One element of the results array of scrapeVinData. -/
structure VinResult where
  vin : String
  fordData : Option FordData
  docsearchDataByRecall : List (String × EaInfo)
  deriving DecidableEq

/-- The validity filter applied to recall numbers in Phase 3 (line 956) and in
createOutputExcel (line 1246): truthy and not one of the two sentinels. -/
def recallIsValid (e : RecallEntry) : Bool :=
  e.recallNumber != "" && e.recallNumber != placeholder1 &&
    e.recallNumber != placeholder2

/-! ### Phase 1: per-VIN Ford lookups with retry (scrapeVinData lines 805-876)

The call `Promise.race([fordScraper.scrapeVinRecallData(vin), timeout])` either
resolves to a fordData object or raises (timeout or other rejection); one
attempt of one VIN is modelled by an `AttemptOutcome` oracle indexed by the
retry count.  Browser restarts (`close` + `initialize`) either succeed, report
a failed initialize, or throw. -/

/-- Result of one raced scraping attempt. -/
inductive AttemptOutcome
  | resolved (fd : FordData)
  | raised (msg : String)
  deriving DecidableEq

/-- Result of one browser restart (`close`, 2 s delay, `initialize`). -/
inductive RestartOutcome
  | restarted
  | initFailed
  | raised (msg : String)
  deriving DecidableEq

/-- The error message thrown when a resolved fordData has `success === false`:
`vinResult.fordData?.error || 'Scraping failed'`. -/
def failedDataMsg (fd : FordData) : String :=
  match fd.error with
  | some e => if e == "" then "Scraping failed" else e
  | none => "Scraping failed"

/-- The failure message of an attempt, or `none` on success
(`fordData && fordData.success !== false`). -/
def attemptFailureMsg : AttemptOutcome → Option String
  | .resolved fd => if fd.success then none else some (failedDataMsg fd)
  | .raised m => some m

/-- The narrow needs-browser-restart classification of scrapeVinData:
the message mentions the missing VIN input field or NS_ERROR_ABORT. -/
def needsBrowserRestart (msg : String) : Bool :=
  containsSubstr msg "Could not find VIN input field" ||
    containsSubstr msg "NS_ERROR_ABORT"

/-- The `{ vin, success: false, error }` object the orchestrator stores on a
terminal failure (no recallData). -/
def orchFailData (msg : String) : FordData :=
  { success := false, error := some msg, recallData := none }

/-- The second (and last) attempt after a successful browser restart:
on failure the retry counter has reached MAX_RETRIES, so any failure is
terminal. -/
def secondAttempt (attempt : Nat → AttemptOutcome) : FordData × Nat :=
  match attempt 1 with
  | .resolved fd =>
    if fd.success then (fd, 2) else (orchFailData (failedDataMsg fd), 2)
  | .raised m2 => (orchFailData m2, 2)

/-- Handling of a first-attempt failure: retry once after a browser restart
when the message is retriable, otherwise (or when the restart itself fails)
record a terminal failure.  The second component counts scraping attempts. -/
def afterFirstFailure (attempt : Nat → AttemptOutcome)
    (restart : Nat → RestartOutcome) (m : String) : FordData × Nat :=
  if needsBrowserRestart m then
    match restart 0 with
    | .restarted => secondAttempt attempt
    | .initFailed =>
      (orchFailData ("Failed to restart browser after error: " ++ m), 1)
    | .raised rm => (orchFailData ("Browser restart failed: " ++ rm), 1)
  else (orchFailData m, 1)

/-- The while-loop of scrapeVinData for a single VIN (MAX_RETRIES = 1),
returning the final fordData and the number of scrapeVinRecallData calls. -/
def scrapeOneVin (attempt : Nat → AttemptOutcome)
    (restart : Nat → RestartOutcome) : FordData × Nat :=
  match attempt 0 with
  | .resolved fd =>
    if fd.success then (fd, 1)
    else afterFirstFailure attempt restart (failedDataMsg fd)
  | .raised m => afterFirstFailure attempt restart m

/-- The vinResult after Phase 1 for one VIN: fordData stays null when the Ford
scraper failed to initialize, and the docsearchDataByRecall map starts empty.
The proactive every-50-VINs browser restart only recycles the session and is
value-irrelevant here. -/
def runPhase1Vin (fordInitialized : Bool) (attempt : Nat → AttemptOutcome)
    (restart : Nat → RestartOutcome) (vin : String) : VinResult :=
  if fordInitialized then
    { vin := vin, fordData := some (scrapeOneVin attempt restart).1,
      docsearchDataByRecall := [] }
  else { vin := vin, fordData := none, docsearchDataByRecall := [] }

/-- Phase 1 over the whole VIN list (attempt/restart oracles are per VIN). -/
def runPhase1 (fordInitialized : Bool)
    (attempt : String → Nat → AttemptOutcome)
    (restart : String → Nat → RestartOutcome) (vins : List String) :
    List VinResult :=
  vins.map fun v => runPhase1Vin fordInitialized (attempt v) (restart v) v

/-! ### Phase 3: deduplicated DocSearch lookups (scrapeVinData lines 941-1057) -/

/-- Was this result collected in STEP 1 of Phase 3
(`fordData && fordData.success && fordData.recallData && ...recalls`)? -/
def isCollected (r : VinResult) : Bool :=
  match r.fordData with
  | some fd => fd.success && fd.recallData.isSome
  | none => false

/-- The valid recall entries this result contributes to Phase 3. -/
def collectedRecalls (r : VinResult) : List RecallEntry :=
  match r.fordData with
  | some fd =>
    if fd.success then
      match fd.recallData with
      | some recalls => recalls.filter recallIsValid
      | none => []
    else []
  | none => []

/-- The valid recall numbers of one result. -/
def validNumbers (r : VinResult) : List String :=
  (collectedRecalls r).map fun e => e.recallNumber

/-- JavaScript `Set.prototype.add` on a first-occurrence-ordered list. -/
def insertUnique (s : List String) (x : String) : List String :=
  if x ∈ s then s else s ++ [x]

/-- The uniqueRecallNumbers Set (as an insertion-ordered array) collected
across all successfully scraped VINs. -/
def uniqueRecallsOf (results : List VinResult) : List String :=
  results.foldl (fun acc r => (validNumbers r).foldl insertUnique acc) []

/-- DOCSEARCH_BATCH_SIZE: the browser is restarted every 100 requests. -/
def docsearchBatchSize : Nat := 100

/-- STEP 3 of Phase 3: one searchVinData call per list element (the catch
branch also stores a value, so the stored EaInfo is the oracle's output);
after every 100th call that is not the last, restart the browser, and if the
restart succeeds but the session is no longer signed in, stop processing
(`break`).  Returns the list of recall numbers actually passed to
searchVinData and the recallToDocsearchDataMap. -/
def phase3Go (lookupEa : String → EaInfo) (reinitOk signedIn : Nat → Bool)
    (dsInit : Bool) (n : Nat) :
    List String → Nat → List String × List (String × EaInfo)
  | [], _ => ([], [])
  | r :: rest, i =>
    let stored := lookupEa r
    let batchRestart := (i + 1) % docsearchBatchSize == 0 && i + 1 < n && dsInit
    let breakNow := batchRestart && reinitOk i && !(signedIn i)
    if breakNow then ([r], [(r, stored)])
    else
      let next := phase3Go lookupEa reinitOk signedIn dsInit n rest (i + 1)
      (r :: next.1, (r, stored) :: next.2)

/-- The error value mapped to every VIN of a recall number that received no
DocSearch data (STEP 4, else branch). -/
def noDataEa (recallNumber : String) : EaInfo :=
  { recallNumber := recallNumber, success := false,
    error := some "DocSearch data not available", eaExists := false,
    eaNumber := none }

/-- `recallToDocsearchDataMap.get(n)` with the STEP 4 fallback. -/
def resolveEa (dataMap : List (String × EaInfo)) (n : String) : EaInfo :=
  match List.lookup n dataMap with
  | some d => d
  | none => noDataEa n

/-- STEP 4 as seen by one result object: the loop over recallToVinsMap sets,
for every unique recall number this (collected) result contributes, the one
value resolved for that number.  Uncollected results are never referenced by
the map and keep their (empty) docsearchDataByRecall. -/
def phase4Apply (uniq : List String) (dataMap : List (String × EaInfo))
    (r : VinResult) : VinResult :=
  if isCollected r then
    let fanned := (uniq.filter (fun n => decide (n ∈ validNumbers r))).map
      (fun n => (n, resolveEa dataMap n))
    { r with docsearchDataByRecall := fanned }
  else r

/-- Phases 2-4 of scrapeVinData: when DocSearch is initialized and
authenticated, run the deduplicated lookups and fan the results back out;
otherwise leave every result untouched. -/
def registryPhase (dsInit authOk : Bool) (lookupEa : String → EaInfo)
    (reinitOk signedIn : Nat → Bool) (results : List VinResult) :
    List VinResult :=
  if dsInit && authOk then
    let uniq := uniqueRecallsOf results
    let run := phase3Go lookupEa reinitOk signedIn dsInit uniq.length uniq 0
    results.map (phase4Apply uniq run.2)
  else results

/-- The recall numbers actually submitted to DocSearchScraper.searchVinData in
one run. -/
def registryCalls (dsInit authOk : Bool) (lookupEa : String → EaInfo)
    (reinitOk signedIn : Nat → Bool) (results : List VinResult) :
    List String :=
  if dsInit && authOk then
    (phase3Go lookupEa reinitOk signedIn dsInit
      (uniqueRecallsOf results).length (uniqueRecallsOf results) 0).1
  else []

/-- The whole of scrapeVinData (Phase 1 then the registry phases). -/
def scrapeVinDataModel (vins : List String) (fordInit : Bool)
    (attempt : String → Nat → AttemptOutcome)
    (restart : String → Nat → RestartOutcome) (dsInit authOk : Bool)
    (lookupEa : String → EaInfo) (reinitOk signedIn : Nat → Bool) :
    List VinResult :=
  registryPhase dsInit authOk lookupEa reinitOk signedIn
    (runPhase1 fordInit attempt restart vins)

/-! ### Report builder (createOutputExcel) -/

/-- One element of scrapedDataWithRows: a VIN result plus the original input
row it came from (the Map-to-plain-object conversion of docsearchDataByRecall
preserves every key-value pair and is the identity here). -/
structure ScrapedItem where
  vin : String
  fordData : Option FordData
  docsearchDataByRecall : List (String × EaInfo)
  originalRow : Row
  deriving DecidableEq

/-- processExcelFile's vinToRowMap pairing: attach each result's originalRow
by VIN (`vinToRowMap.get(item.vin)`, empty object when absent). -/
def attachRows (vinRows : List (String × Row)) (results : List VinResult) :
    List ScrapedItem :=
  results.map fun r =>
    { vin := r.vin, fordData := r.fordData,
      docsearchDataByRecall := r.docsearchDataByRecall,
      originalRow := (List.lookup r.vin vinRows).getD [] }

/-- `str.toString().trim().toUpperCase().replace(/\s+/g, ' ')`, the key
normalizer of getColumnValue. -/
def normalizeKey (s : String) : String :=
  upperCollapse (strTrim s)

/-- getColumnValue: primary key (truthy exact match), then alternates (truthy
exact match), then a scan comparing normalized column names against the
normalized primary and alternate keys (no truthiness check in the scan, as in
the source), else the empty string. -/
def getColumnValue (row : Row) (primary : String) (alternates : List String) :
    Cell :=
  let exact := fun k =>
    match rowGet row k with
    | some c => if cellTruthy c then some c else none
    | none => none
  match exact primary with
  | some c => c
  | none =>
    match alternates.findSome? exact with
    | some c => c
    | none =>
      let np := normalizeKey primary
      let nas := alternates.map normalizeKey
      let scanned := row.findSome? fun kv =>
        let nk := normalizeKey kv.1
        if nk == np || nas.any (fun na => na == nk) then some kv.2 else none
      match scanned with
      | some c => c
      | none => .str ""

/-- One row of the Recall Data sheet. -/
structure ReportRow where
  assetNo : Cell
  year : Cell
  model : Cell
  manufacturer : Cell
  station : Cell
  vin : String
  fordRecallNumber : String
  rtype : String
  eaNumber : String
  workOrder : Cell
  workOrderStatus : Cell
  deriving DecidableEq

/-- The EA number shown for one recall of one item: the eaNumber of the
DocSearch data stored for that recall number when truthy, else "NONE"
(the legacy item.docsearchData fallback is dead code, since the
docsearchDataByRecall object always exists). -/
def eaDisplay (m : List (String × EaInfo)) (recallNumber : String) : String :=
  match List.lookup recallNumber m with
  | some d =>
    match d.eaNumber with
    | some s => if s == "" then "NONE" else s
    | none => "NONE"
  | none => "NONE"

/-- `recall.type || 'Recall'`. -/
def typeDisplay (e : RecallEntry) : String :=
  match e.rtype with
  | some t => if t == "" then "Recall" else t
  | none => "Recall"

/-- The Recall Data row constructed for one valid recall of one item
(createOutputExcel lines 1277-1292). -/
def mkReportRow (item : ScrapedItem) (rc : RecallEntry) : ReportRow :=
  let status := getColumnValue item.originalRow "WORK ORDER STATUS"
    ["WO STATUS", "WO Status", "Work Order Status", "WORK ORDER STAT",
     "WO STAT", "WorkOrderStatus", "WORKORDERSTATUS", "WOStatus", "WOSTATUS"]
  { assetNo := getColumnValue item.originalRow "ASSET NO"
      ["EQ EQUIP NO", "EQ EQUIPMENT NO", "EQUIPMENT NO", "EQUIP NO"]
    year := getColumnValue item.originalRow "YEAR" []
    model := getColumnValue item.originalRow "MODEL" []
    manufacturer := getColumnValue item.originalRow "MANUFACTURER" ["MAKE"]
    station := getColumnValue item.originalRow "STATION"
      ["LOC ASSIGN PM LOC", "LOC", "PM LOC", "LOCATION"]
    vin := item.vin
    fordRecallNumber := rc.recallNumber
    rtype := typeDisplay rc
    eaNumber := eaDisplay item.docsearchDataByRecall rc.recallNumber
    workOrder := getColumnValue item.originalRow "Work Order"
      ["WORK ORDER", "WO", "WORK ORDER NO", "WORK ORDER NUMBER", "WO NUMBER",
       "WorkOrder", "WORKORDER"]
    workOrderStatus :=
      if cellTruthy status && strTrim (cellToString status) != "" then status
      else .str "NONE" }

/-- The hasRecalls gate of createOutputExcel (lines 1146-1158): recallData
with a nonempty recalls array, at least one entry whose recall number is a
truthy string with nonempty trim and not a sentinel. -/
def hasRecallsB (item : ScrapedItem) : Bool :=
  match item.fordData with
  | some fd =>
    match fd.recallData with
    | some recalls =>
      !recalls.isEmpty && recalls.any (fun e =>
        e.recallNumber != "" && strTrim e.recallNumber != "" &&
        e.recallNumber != placeholder1 && e.recallNumber != placeholder2)
    | none => false
  | none => false

/-- The validRecalls of one item in createOutputExcel (lines 1245-1250):
the Phase 3 validity filter, without the trim check of hasRecalls. -/
def validRecallsOf (item : ScrapedItem) : List RecallEntry :=
  match item.fordData with
  | some fd =>
    match fd.recallData with
    | some recalls => recalls.filter recallIsValid
    | none => []
  | none => []

/-- The Recall Data rows one item contributes: one row per valid recall when
the hasRecalls gate passes, none otherwise. -/
def rowsForItem (item : ScrapedItem) : List ReportRow :=
  if hasRecallsB item then (validRecallsOf item).map (mkReportRow item)
  else []

/-- The excelData array (Recall Data sheet content). -/
def recallDataRows (scrapedData : List ScrapedItem) : List ReportRow :=
  scrapedData.flatMap rowsForItem

/-- `!eaNumber || trim === '' || trim.toUpperCase() === 'NONE'` (Needs EA). -/
def hasNoEA (row : ReportRow) : Bool :=
  row.eaNumber == "" || strTrim row.eaNumber == "" ||
    strUpper (strTrim row.eaNumber) == "NONE"

/-- `row['Type'] || 'Recall'` on a report row. -/
def rowTypeD (row : ReportRow) : String :=
  if row.rtype == "" then "Recall" else row.rtype

/-- One entry of the Needs EA sheet: recall number and type only. -/
structure NeedsEAEntry where
  fordRecallNumber : String
  rtype : String
  deriving DecidableEq

/-- The dedup key `recallNumber + '|' + recallType` of the Needs EA loop. -/
def needsEAKey (recallNumber recallType : String) : String :=
  recallNumber ++ "|" ++ recallType

/-- One iteration of the Needs EA loop (createOutputExcel lines 1567-1590):
rows lacking an EA number contribute a (recall, type) entry once per unique
string key.  The accumulator is (needsEASet, needsEAData). -/
def needsEAFold (acc : List String × List NeedsEAEntry) (row : ReportRow) :
    List String × List NeedsEAEntry :=
  let recallNumber := row.fordRecallNumber
  let recallType := rowTypeD row
  if hasNoEA row && recallNumber != "" then
    let key := needsEAKey recallNumber recallType
    if key ∈ acc.1 then acc
    else (acc.1 ++ [key], acc.2 ++ [⟨recallNumber, recallType⟩])
  else acc

/-- The Needs EA data before sorting. -/
def needsEADataPre (rows : List ReportRow) : List NeedsEAEntry :=
  (rows.foldl needsEAFold ([], [])).2

/-- The sort comparator of the Needs EA sheet (localeCompare approximated by
code-point order; the claims below are membership-level and unaffected). -/
def needsEALe (a b : NeedsEAEntry) : Bool :=
  a.fordRecallNumber < b.fordRecallNumber ||
    (a.fordRecallNumber == b.fordRecallNumber && a.rtype ≤ b.rtype)

/-- The Needs EA sheet content: deduplicated (recall, type) pairs, sorted. -/
def needsEAData (rows : List ReportRow) : List NeedsEAEntry :=
  jsSort needsEALe (needsEADataPre rows)

/-- `eaNumber && trim !== '' && trim.toUpperCase() !== 'NONE'` (Needs WO). -/
def rowHasEA (row : ReportRow) : Bool :=
  row.eaNumber != "" && strTrim row.eaNumber != "" &&
    strUpper (strTrim row.eaNumber) != "NONE"

/-- `!workOrder || trim === '' || trim.toUpperCase() === 'NONE'` where
workOrder is `row['Work Order'] || ''`: note that the placeholder "--" does
NOT satisfy this test. -/
def rowHasNoWO (row : ReportRow) : Bool :=
  !(cellTruthy row.workOrder) || strTrim (cellToString row.workOrder) == "" ||
    strUpper (strTrim (cellToString row.workOrder)) == "NONE"

/-- One entry of the Needs WO sheet. -/
structure NeedsWOEntry where
  eaNumber : String
  assetNo : Cell
  year : Cell
  model : Cell
  station : Cell
  vin : String
  deriving DecidableEq

/-- `c || ''`. -/
def cellOrEmpty (c : Cell) : Cell :=
  if cellTruthy c then c else .str ""

/-- The Needs WO projection of a report row (lines 1634-1641). -/
def projWO (row : ReportRow) : NeedsWOEntry :=
  { eaNumber := row.eaNumber, assetNo := cellOrEmpty row.assetNo,
    year := cellOrEmpty row.year, model := cellOrEmpty row.model,
    station := cellOrEmpty row.station, vin := row.vin }

/-- The Needs WO data before sorting: rows with an EA number but an empty or
NONE work order. -/
def needsWODataPre (rows : List ReportRow) : List NeedsWOEntry :=
  (rows.filter (fun r => rowHasEA r && rowHasNoWO r)).map projWO

/-- The Needs WO sort comparator (localeCompare approximated by code-point
order on the stringified cells). -/
def needsWOLe (a b : NeedsWOEntry) : Bool :=
  a.eaNumber < b.eaNumber ||
    (a.eaNumber == b.eaNumber &&
      cellToString a.assetNo ≤ cellToString b.assetNo)

/-- The Needs WO sheet content. -/
def needsWOData (rows : List ReportRow) : List NeedsWOEntry :=
  jsSort needsWOLe (needsWODataPre rows)

/-- The sheets appended to the output workbook, in order
(createOutputExcel lines 1684-1687). -/
def outputSheetNames : List String :=
  ["Grouped by Recall", "Recall Data", "Needs EA", "Needs WO"]

/-! ### Comparison engine (the /compare route, lines 197-282) -/

/-- One element of recallSatisfactionList / missingRecalls:
`{ recallNumber, type, assetNo }`. -/
structure CompareItem where
  recallNumber : String
  rtype : Cell
  assetNo : String
  deriving DecidableEq

/-- The per-row collection step of the /compare route (lines 200-215): rows
whose Ford Recall Number is truthy and not a sentinel contribute their trimmed
recall number, their type (default Recall) and their trimmed asset number. -/
def compareRowItem (row : Row) : Option CompareItem :=
  let typeCell :=
    match rowGet row "Type" with
    | some c => if cellTruthy c then c else .str "Recall"
    | none => .str "Recall"
  let assetCell :=
    match rowGet row "ASSET NO" with
    | some c => if cellTruthy c then c else .str ""
    | none => .str ""
  match rowGet row "Ford Recall Number" with
  | some c =>
    if cellTruthy c && c != .str placeholder1 && c != .str placeholder2 then
      some { recallNumber := strTrim (cellToString c), rtype := typeCell,
             assetNo := strTrim (cellToString assetCell) }
    else none
  | none => none

/-- recallSatisfactionList. -/
def recallListOf (outputData : List Row) : List CompareItem :=
  outputData.filterMap compareRowItem

/-- The uniqueRecallNumbers Set of the /compare route. -/
def uniqueCompareRecalls (outputData : List Row) : List String :=
  ((recallListOf outputData).map (fun it => it.recallNumber)).foldl
    insertUnique []

/-- totalChecked, reported to the caller: the number of unique recall numbers
checked. -/
def totalChecked (outputData : List Row) : Nat :=
  (uniqueCompareRecalls outputData).length

/-- `titleValues.some(t => t.toLowerCase().includes(r.toLowerCase()))`. -/
def titleFound (titles : List String) (r : String) : Bool :=
  titles.any fun t => containsSubstr (strLower t) (strLower r)

/-- The case-insensitive detection of the Title column on the first row. -/
def detectTitleColumn (comparisonData : List Row) : Option String :=
  match comparisonData with
  | [] => none
  | firstRow :: _ =>
    (firstRow.map (fun kv => kv.1)).find? fun k => strLower k == "title"

/-- The trimmed truthy Title values of the comparison file. -/
def titleValuesOf (comparisonData : List Row) (titleColumn : String) :
    List String :=
  comparisonData.filterMap fun row =>
    match rowGet row titleColumn with
    | some c => if cellTruthy c then some (strTrim (cellToString c)) else none
    | none => none

/-- The failure modes of the /compare route that the claims mention. -/
inductive CompareError
  | emptyComparisonFile
  | noTitleColumn
  deriving DecidableEq

/-- The core of the /compare route: reject an empty comparison file or a
missing Title column, else report every (recall, type, asset) item of the
output file whose recall number was not found as a substring of any Title. -/
def compareFiles (outputData comparisonData : List Row) :
    Except CompareError (List CompareItem) :=
  if comparisonData.isEmpty then .error .emptyComparisonFile
  else
    match detectTitleColumn comparisonData with
    | none => .error .noTitleColumn
    | some tc =>
      let titles := titleValuesOf comparisonData tc
      let foundNumbers := (uniqueCompareRecalls outputData).filter
        (fun r => titleFound titles r)
      .ok ((recallListOf outputData).filter
        (fun it => !(foundNumbers.contains it.recallNumber)))

/-- The spec-worded comparison output (section 4.5 of the design): the subset
of (recall, type, asset) rows of the report whose recall number does not occur
case-insensitively inside any Title value. -/
def specMissing (outputData : List Row) (titles : List String) :
    List CompareItem :=
  (recallListOf outputData).filter fun it => !(titleFound titles it.recallNumber)

/-! ### Derived predicates used by the Needs EA characterization -/

/-- Does a report row qualify for the Needs EA sheet
(`hasNoEA && recallNumber`)? -/
def needsEAQualifies (row : ReportRow) : Bool :=
  hasNoEA row && row.fordRecallNumber != ""

/-- The entry a qualifying row contributes. -/
def needsEAEntryOf (row : ReportRow) : NeedsEAEntry :=
  ⟨row.fordRecallNumber, rowTypeD row⟩

/-- The dedup key of an entry. -/
def needsEAKeyOf (e : NeedsEAEntry) : String :=
  needsEAKey e.fordRecallNumber e.rtype

/-! ### Concrete inputs used by witnesses and counterexamples -/

/-- A host date parser accepting nothing (the regex branch still parses
M/D/YYYY strings). -/
def hostNone : String → Option Int := fun _ => none

/-- The first duplicate-VIN example row of the design document. -/
def exRowA : Row :=
  [("SERIAL NO", .str "1FTFW1ET1EFA12345"), ("DATETIME OPEN", .str "4/29/2021")]

/-- The second duplicate-VIN example row (later date). -/
def exRowB : Row :=
  [("SERIAL NO", .str "1FTFW1ET1EFA12345"), ("DATETIME OPEN", .str "5/1/2021")]

/-- A row whose only candidate VIN value is non-empty but invalid. -/
def badVinRow : Row := [("SERIAL NO", .str "ABC123")]

/-- 101 results with 101 distinct valid recall numbers: enough to cross the
100-lookup batch restart of Phase 3. -/
def c1cxResults : List VinResult :=
  (List.range 101).map fun i =>
    ⟨"V" ++ toString i,
      some ⟨true, none, some [⟨"R" ++ toString i, some "Recall"⟩]⟩, []⟩

/-- A DocSearch oracle resolving every number. -/
def c1cxLookup : String → EaInfo := fun n => ⟨n, true, none, true, some "EA"⟩

/-- Two results sharing one recall number (three pairs, two distinct
numbers). -/
def c1wResults : List VinResult :=
  [⟨"VINA", some ⟨true, none,
      some [⟨"24V684", some "Recall"⟩, ⟨"23V001", some "Recall"⟩]⟩, []⟩,
   ⟨"VINB", some ⟨true, none, some [⟨"24V684", some "Recall"⟩]⟩, []⟩]

/-- Two VINs whose Ford lookups both report recall 24V684. -/
def c2wVins : List String := ["1FA11111111111111", "1FB22222222222222"]

/-- Ford oracle: every attempt succeeds with the shared recall. -/
def c2wAttempt : String → Nat → AttemptOutcome :=
  fun _ _ => .resolved ⟨true, none, some [⟨"24V684", some "Recall"⟩]⟩

/-- Restart oracle (never consulted in this witness run). -/
def c2wRestart : String → Nat → RestartOutcome := fun _ _ => .restarted

/-- DocSearch oracle resolving the shared recall to EA-100. -/
def c2wLookup : String → EaInfo := fun n => ⟨n, true, none, true, some "EA-100"⟩

/-- The witness pipeline run for the fan-out claim. -/
def c2wResults : List VinResult :=
  scrapeVinDataModel c2wVins true c2wAttempt c2wRestart true true c2wLookup
    (fun _ => true) (fun _ => true)

/-- Its Recall Data rows (no original input rows attached). -/
def c2wRows : List ReportRow := recallDataRows (attachRows [] c2wResults)

/-- The expected first report row of the witness run. -/
def c2wRow1 : ReportRow :=
  ⟨.str "", .str "", .str "", .str "", .str "", "1FA11111111111111", "24V684",
   "Recall", "EA-100", .str "", .str "NONE"⟩

/-- The expected second report row of the witness run. -/
def c2wRow2 : ReportRow :=
  ⟨.str "", .str "", .str "", .str "", .str "", "1FB22222222222222", "24V684",
   "Recall", "EA-100", .str "", .str "NONE"⟩

/-- A scraped item with three distinct valid recalls, one resolved EA. -/
def c3wItem : ScrapedItem :=
  ⟨"1FA11111111111111",
   some ⟨true, none, some [⟨"24V684", some "Recall"⟩, ⟨"23V123", some "Recall"⟩,
     ⟨"22L05", some "Safety"⟩]⟩,
   [("24V684", ⟨"24V684", true, none, true, some "EA-1"⟩)],
   [("ASSET NO", .str "A-1"), ("YEAR", .num 2020)]⟩

/-- A report file with one found and one unfound recall number. -/
def c5wOut : List Row :=
  [[("Ford Recall Number", .str "24V684"), ("ASSET NO", .str "A1"),
    ("Type", .str "Recall")],
   [("Ford Recall Number", .str "25V999"), ("ASSET NO", .str "A2"),
    ("Type", .str "Satisfaction")]]

/-- A reference file whose single Title mentions 24V684 inside a longer
string. -/
def c5wCmp : List Row := [[("Title", .str "NHTSA 24V684 Brake Recall")]]

/-- The expected missing rows for the comparison witness. -/
def c5wMissing : List CompareItem := [⟨"25V999", .str "Satisfaction", "A2"⟩]

/-- First of two affected rows sharing recall 24V684 with no EA number. -/
def c7Row1 : ReportRow :=
  ⟨.str "A1", .str "2020", .str "F-150", .str "FORD", .str "S1",
   "1FA11111111111111", "24V684", "Recall", "NONE", .str "", .str "NONE"⟩

/-- Second affected row: same recall and type, different asset and VIN. -/
def c7Row2 : ReportRow :=
  ⟨.str "A2", .str "2021", .str "F-250", .str "FORD", .str "S2",
   "1FB22222222222222", "24V684", "Recall", "NONE", .str "", .str "NONE"⟩

/-- The two-row Needs EA counterexample input. -/
def c7Rows : List ReportRow := [c7Row1, c7Row2]

/-- A row with a resolved EA number and a work order field of exactly "--". -/
def c8Row : ReportRow :=
  ⟨.str "A1", .str "2020", .str "F-150", .str "FORD", .str "S1",
   "1FA11111111111111", "24V684", "Recall", "EA-25-001", .str "--",
   .str "NONE"⟩

/-- A first attempt failing with the retriable missing-input-field message,
then a successful attempt. -/
def c9wAttemptRetriable : Nat → AttemptOutcome :=
  fun k => if k == 0 then .raised "Could not find VIN input field"
           else .resolved ⟨true, none, some []⟩

/-- A restart oracle that always restarts successfully. -/
def c9wRestartOk : Nat → RestartOutcome := fun _ => .restarted

/-- An attempt oracle failing with a non-retriable message. -/
def c9wAttemptPlain : Nat → AttemptOutcome :=
  fun _ => .resolved ⟨false, some "Some page layout error", none⟩

/-- A report row carrying the first sentinel as its recall number. -/
def c10wRow : Row :=
  [("Ford Recall Number", .str "No recall information"), ("ASSET NO", .str "A1")]

/-- A reference file for the sentinel-exclusion witness. -/
def c10wCmp : List Row := [[("Title", .str "nothing relevant here")]]

/-! ### Helper lemmas -/

theorem mem_sortInsert {α : Type} {le : α → α → Bool} {x y : α}
    {l : List α} : y ∈ sortInsert le x l ↔ y = x ∨ y ∈ l := by
  induction l with
  | nil => simp [sortInsert]
  | cons a l ih =>
    unfold sortInsert
    split
    · simp [List.mem_cons]
    · simp only [List.mem_cons, ih]
      tauto

theorem sortInsert_perm {α : Type} (le : α → α → Bool) (x : α) (l : List α) :
    (sortInsert le x l).Perm (x :: l) := by
  induction l with
  | nil => exact List.Perm.refl _
  | cons a l ih =>
    unfold sortInsert
    split
    · exact List.Perm.refl _
    · exact (List.Perm.cons a ih).trans (List.Perm.swap x a l)

theorem jsSort_perm {α : Type} (le : α → α → Bool) (l : List α) :
    (jsSort le l).Perm l := by
  induction l with
  | nil => exact List.Perm.refl _
  | cons a l ih =>
    exact (sortInsert_perm le a (jsSort le l)).trans (List.Perm.cons a ih)

theorem mem_jsSort {α : Type} {le : α → α → Bool} {y : α} {l : List α} :
    y ∈ jsSort le l ↔ y ∈ l :=
  (jsSort_perm le l).mem_iff

theorem lookup_eq_none_iff {β : Type} (k : String) (m : List (String × β)) :
    List.lookup k m = none ↔ ∀ kv ∈ m, kv.1 ≠ k := by
  induction m with
  | nil => simp
  | cons a l ih =>
    obtain ⟨ka, va⟩ := a
    rcases eq_or_ne k ka with h | h
    · subst h
      simp [List.lookup_cons]
    · have hbeq : (k == ka) = false := by
        simp [h]
      simp only [List.lookup_cons, hbeq, List.mem_cons]
      constructor
      · intro hl kv hkv
        rcases hkv with rfl | hkv
        · exact fun habs => h habs.symm
        · exact (ih.mp hl) kv hkv
      · intro hall
        exact ih.mpr fun kv hkv => hall kv (Or.inr hkv)

theorem mem_insertUnique {s : List String} {x y : String} :
    y ∈ insertUnique s x ↔ y ∈ s ∨ y = x := by
  unfold insertUnique
  split
  · rename_i hx
    constructor
    · exact Or.inl
    · rintro (h | rfl)
      · exact h
      · exact hx
  · simp [List.mem_append]

theorem nodup_insertUnique {s : List String} {x : String} (h : s.Nodup) :
    (insertUnique s x).Nodup := by
  unfold insertUnique
  split
  · exact h
  · rename_i hx
    rw [List.nodup_append]
    refine ⟨h, List.nodup_singleton x, ?_⟩
    intro a ha hax
    rw [List.mem_singleton] at hax
    subst hax
    exact hx ha

theorem mem_foldl_insertUnique {l : List String} {acc : List String}
    {y : String} :
    y ∈ l.foldl insertUnique acc ↔ y ∈ acc ∨ y ∈ l := by
  induction l generalizing acc with
  | nil => simp
  | cons x l ih =>
    simp only [List.foldl_cons, ih, mem_insertUnique, List.mem_cons]
    tauto

theorem nodup_foldl_insertUnique {l : List String} {acc : List String}
    (h : acc.Nodup) : (l.foldl insertUnique acc).Nodup := by
  induction l generalizing acc with
  | nil => exact h
  | cons x l ih => exact ih (nodup_insertUnique h)

theorem mem_uniqueRecallsOf {results : List VinResult} {n : String} :
    n ∈ uniqueRecallsOf results ↔ ∃ r ∈ results, n ∈ validNumbers r := by
  have key : ∀ (rs : List VinResult) (acc : List String),
      n ∈ rs.foldl (fun acc r => (validNumbers r).foldl insertUnique acc) acc ↔
        n ∈ acc ∨ ∃ r ∈ rs, n ∈ validNumbers r := by
    intro rs
    induction rs with
    | nil => simp
    | cons r rs ih =>
      intro acc
      simp only [List.foldl_cons, ih, mem_foldl_insertUnique, List.mem_cons]
      constructor
      · rintro ((h | h) | ⟨r', hr', hn⟩)
        · exact Or.inl h
        · exact Or.inr ⟨r, Or.inl rfl, h⟩
        · exact Or.inr ⟨r', Or.inr hr', hn⟩
      · rintro (h | ⟨r', rfl | hr', hn⟩)
        · exact Or.inl (Or.inl h)
        · exact Or.inl (Or.inr hn)
        · exact Or.inr ⟨r', hr', hn⟩
  simpa using key results []

theorem uniqueRecallsOf_nodup (results : List VinResult) :
    (uniqueRecallsOf results).Nodup := by
  have key : ∀ (rs : List VinResult) (acc : List String), acc.Nodup →
      (rs.foldl (fun acc r => (validNumbers r).foldl insertUnique acc) acc).Nodup := by
    intro rs
    induction rs with
    | nil => exact fun acc h => h
    | cons r rs ih => exact fun acc h => ih _ (nodup_foldl_insertUnique h)
  exact key results [] List.nodup_nil

theorem lookup_map_pair {β : Type} {l : List String} {f : String → β}
    {n : String} :
    List.lookup n (l.map fun m => (m, f m)) =
      if n ∈ l then some (f n) else none := by
  induction l with
  | nil => simp
  | cons a l ih =>
    rcases eq_or_ne n a with h | h
    · subst h
      simp [List.lookup_cons]
    · have hbeq : (n == a) = false := by simp [h]
      simp [List.lookup_cons, hbeq, ih, h]

theorem phase3Go_eats (lookupEa : String → EaInfo)
    (reinitOk signedIn : Nat → Bool) (dsInit : Bool) (n : Nat) :
    ∀ (l : List String) (i : Nat),
      ∃ t, (phase3Go lookupEa reinitOk signedIn dsInit n l i).1 ++ t = l := by
  intro l
  induction l with
  | nil => exact fun i => ⟨[], rfl⟩
  | cons r rest ih =>
    intro i
    unfold phase3Go
    dsimp only
    split
    · exact ⟨rest, rfl⟩
    · obtain ⟨t, ht⟩ := ih (i + 1)
      exact ⟨t, by simp [ht]⟩

theorem phase3Go_complete (lookupEa : String → EaInfo)
    (reinitOk signedIn : Nat → Bool) (dsInit : Bool) (n : Nat)
    (hs : ∀ k, signedIn k = true) :
    ∀ (l : List String) (i : Nat),
      (phase3Go lookupEa reinitOk signedIn dsInit n l i).1 = l := by
  intro l
  induction l with
  | nil => exact fun _ => rfl
  | cons r rest ih =>
    intro i
    unfold phase3Go
    simp [hs i, ih (i + 1)]

/-! ### Claim C6 -/

/-- C6, counterexample: an input row whose only candidate value "ABC123" is
non-empty and fails the 17-character check leaves no trace whatsoever in the
extraction state (the vinMap is empty, so the value was silently dropped), and
no "Invalid VINs" view exists among the output sheets — refuting both the
InvalidRow classification and the surfacing that the claim asserts. -/
theorem c6_counterexample :
    extractVinsAuto hostNone [badVinRow] = [] ∧
    vinMapOf hostNone [badVinRow] = [] ∧
    "Invalid VINs" ∉ outputSheetNames := by
  decide

/-- C6, amended: a row yielding no valid VIN (in particular one whose
non-empty candidate values all fail the 17-character/charset check) is
silently dropped by the extractor — removing it from the input changes
nothing — and the output workbook has no "Invalid VINs" view. -/
theorem c6_amended (hostParse : String → Option Int) (r : Row)
    (h : rowVinAuto r = none) :
    (∀ pre post : List Row,
      extractVinsAuto hostParse (pre ++ r :: post) =
        extractVinsAuto hostParse (pre ++ post)) ∧
    "Invalid VINs" ∉ outputSheetNames := by
  constructor
  · intro pre post
    unfold extractVinsAuto vinMapOf
    have hstep : ∀ m, dedupStep hostParse m r = m := by
      intro m
      simp [dedupStep, h]
    rw [List.foldl_append, List.foldl_append, List.foldl_cons, hstep]
  · decide

/-- C6 amended, witness at the concrete invalid row "ABC123". -/
theorem c6_witness :
    rowVinAuto badVinRow = none ∧
    extractVinsAuto hostNone ([exRowA] ++ badVinRow :: []) =
      extractVinsAuto hostNone ([exRowA] ++ []) :=
  ⟨by decide, (c6_amended hostNone badVinRow (by decide)).1 [exRowA] []⟩

/-! ### Claim C8 -/

/-- C8, counterexample: a report row with a resolved EA number whose work
order field is exactly "--" is NOT included in the Needs WO view, contrary to
the claim's list of placeholders. -/
theorem c8_counterexample :
    rowHasEA c8Row = true ∧ cellToString c8Row.workOrder = "--" ∧
    needsWOData [c8Row] = [] := by
  decide

/-- C8, amended: a report row appears in the Needs Work Order view iff its EA
number is resolved (non-empty trim, not NONE case-insensitively) and its work
order field is empty or NONE after trimming — the placeholder "--" is NOT
recognised, so such rows are excluded. -/
theorem c8_amended (rows : List ReportRow) (e : NeedsWOEntry) :
    e ∈ needsWOData rows ↔
      ∃ row ∈ rows, rowHasEA row = true ∧ rowHasNoWO row = true ∧
        e = projWO row := by
  unfold needsWOData needsWODataPre
  rw [mem_jsSort]
  constructor
  · intro hm
    obtain ⟨row, hrow, heq⟩ := List.mem_map.mp hm
    obtain ⟨hmem, hp⟩ := List.mem_filter.mp hrow
    simp only [Bool.and_eq_true] at hp
    exact ⟨row, hmem, hp.1, hp.2, heq.symm⟩
  · rintro ⟨row, hmem, h1, h2, rfl⟩
    exact List.mem_map.mpr ⟨row, List.mem_filter.mpr ⟨hmem, by simp [h1, h2]⟩, rfl⟩

/-! ### Claim C10 -/

/-- C10: a row whose Ford Recall Number cell is missing, the empty string, or
one of the two sentinel placeholder strings contributes nothing to the
comparison: the collected (recall, type, asset) list, the unique-recall count
reported as totalChecked, and the entire /compare result are the same with and
without the row, whatever the reference document contains. -/
theorem c10_sentinel_rows_excluded (r : Row)
    (h : rowGet r "Ford Recall Number" = none ∨
         rowGet r "Ford Recall Number" = some (.str "") ∨
         rowGet r "Ford Recall Number" = some (.str placeholder1) ∨
         rowGet r "Ford Recall Number" = some (.str placeholder2)) :
    (∀ pre post : List Row,
      recallListOf (pre ++ r :: post) = recallListOf (pre ++ post)) ∧
    (∀ pre post : List Row,
      totalChecked (pre ++ r :: post) = totalChecked (pre ++ post)) ∧
    ∀ pre post cmp,
      compareFiles (pre ++ r :: post) cmp = compareFiles (pre ++ post) cmp := by
  have hnone : compareRowItem r = none := by
    unfold compareRowItem
    rcases h with h | h | h | h <;>
      rw [h] <;> simp [cellTruthy, placeholder1, placeholder2]
  have hlist : ∀ pre post : List Row,
      recallListOf (pre ++ r :: post) = recallListOf (pre ++ post) := by
    intro pre post
    unfold recallListOf
    rw [List.filterMap_append, List.filterMap_append, List.filterMap_cons,
      hnone]
  refine ⟨hlist, ?_, ?_⟩
  · intro pre post
    unfold totalChecked uniqueCompareRecalls recallListOf
    rw [show (pre ++ r :: post).filterMap compareRowItem
        = (pre ++ post).filterMap compareRowItem from hlist pre post]
  · intro pre post cmp
    unfold compareFiles uniqueCompareRecalls
    rw [hlist pre post]

/-- C10, witness at a concrete sentinel row. -/
theorem c10_witness :
    rowGet c10wRow "Ford Recall Number" = some (.str placeholder1) ∧
    compareFiles [c10wRow] c10wCmp = compareFiles [] c10wCmp ∧
    totalChecked [c10wRow] = 0 :=
  ⟨by decide,
   (c10_sentinel_rows_excluded c10wRow (by decide)).2.2 [] [] c10wCmp,
   by decide⟩

/-! ### Claim C5 -/

/-- C5: whenever the /compare route succeeds, its output is exactly the
spec-worded set: a recall number is reported missing iff it does not occur as
a case-insensitive substring of any Title value of the reference document, and
the missing report re-expands to one output row per (recall, type, asset) row
of the source report that carries an unfound recall number. -/
theorem c5_missing_iff_unmatched (outputData comparisonData : List Row)
    (missing : List CompareItem)
    (h : compareFiles outputData comparisonData = .ok missing) :
    ∃ tc, detectTitleColumn comparisonData = some tc ∧
      missing = specMissing outputData (titleValuesOf comparisonData tc) ∧
      ∀ n : String,
        (∃ it ∈ missing, it.recallNumber = n) ↔
          ((∃ it ∈ recallListOf outputData, it.recallNumber = n) ∧
            titleFound (titleValuesOf comparisonData tc) n = false) := by
  unfold compareFiles at h
  split at h
  · simp at h
  split at h
  · simp at h
  rename_i tc htc
  simp only [Except.ok.injEq] at h
  subst h
  have hpt : ∀ it ∈ recallListOf outputData,
      (((uniqueCompareRecalls outputData).filter fun r =>
          titleFound (titleValuesOf comparisonData tc) r).contains
        it.recallNumber)
        = titleFound (titleValuesOf comparisonData tc) it.recallNumber := by
    intro it hit
    have hmemU : it.recallNumber ∈ uniqueCompareRecalls outputData := by
      unfold uniqueCompareRecalls
      rw [mem_foldl_insertUnique]
      exact Or.inr (List.mem_map.mpr ⟨it, hit, rfl⟩)
    cases hf : titleFound (titleValuesOf comparisonData tc) it.recallNumber with
    | true =>
      have hm : it.recallNumber ∈ (uniqueCompareRecalls outputData).filter
          fun r => titleFound (titleValuesOf comparisonData tc) r :=
        List.mem_filter.mpr ⟨hmemU, hf⟩
      simp only [List.contains, List.elem_eq_mem, decide_eq_true_eq]
      exact hm
    | false =>
      have hnot : it.recallNumber ∉ (uniqueCompareRecalls outputData).filter
          fun r => titleFound (titleValuesOf comparisonData tc) r := by
        intro hmem
        have hcontra := (List.mem_filter.mp hmem).2
        rw [hf] at hcontra
        exact Bool.false_ne_true hcontra
      simp only [List.contains, List.elem_eq_mem, decide_eq_false_iff_not]
      exact hnot
  have hflt : ((recallListOf outputData).filter fun it =>
      !(((uniqueCompareRecalls outputData).filter fun r =>
          titleFound (titleValuesOf comparisonData tc) r).contains
        it.recallNumber))
      = specMissing outputData (titleValuesOf comparisonData tc) := by
    unfold specMissing
    exact List.filter_congr fun it hit => by rw [hpt it hit]
  refine ⟨tc, htc, hflt, ?_⟩
  intro n
  rw [hflt]
  unfold specMissing
  constructor
  · rintro ⟨it, hmemf, rfl⟩
    obtain ⟨hit, hp⟩ := List.mem_filter.mp hmemf
    rw [Bool.not_eq_eq_eq_not, Bool.not_true] at hp
    exact ⟨⟨it, hit, rfl⟩, hp⟩
  · rintro ⟨⟨it, hit, rfl⟩, hf⟩
    refine ⟨it, List.mem_filter.mpr ⟨hit, ?_⟩, rfl⟩
    rw [hf]
    rfl

/-- C5, witness: "24V684" inside the Title "NHTSA 24V684 Brake Recall" is
found (not missing), while "25V999" is reported missing once for its (recall,
asset) row. -/
theorem c5_witness :
    compareFiles c5wOut c5wCmp = .ok c5wMissing ∧
    (∃ tc, detectTitleColumn c5wCmp = some tc ∧
      c5wMissing = specMissing c5wOut (titleValuesOf c5wCmp tc) ∧
      ∀ n : String,
        (∃ it ∈ c5wMissing, it.recallNumber = n) ↔
          ((∃ it ∈ recallListOf c5wOut, it.recallNumber = n) ∧
            titleFound (titleValuesOf c5wCmp tc) n = false)) :=
  ⟨by rfl, c5_missing_iff_unmatched c5wOut c5wCmp c5wMissing (by rfl)⟩

/-! ### Claim C7 -/

theorem pipe_append_inj {a b c d : List Char}
    (ha : '|' ∉ a) (hc : '|' ∉ c)
    (h : a ++ '|' :: b = c ++ '|' :: d) : a = c ∧ b = d := by
  induction a generalizing c with
  | nil =>
    cases c with
    | nil => simpa using h
    | cons y ys =>
      simp only [List.nil_append, List.cons_append, List.cons.injEq] at h
      obtain ⟨h1, h2⟩ := h
      exact absurd (h1 ▸ List.mem_cons_self y ys) hc
  | cons x xs ih =>
    cases c with
    | nil =>
      simp only [List.cons_append, List.nil_append, List.cons.injEq] at h
      obtain ⟨h1, h2⟩ := h
      exact absurd (h1 ▸ List.mem_cons_self x xs) ha
    | cons y ys =>
      simp only [List.cons_append, List.cons.injEq] at h
      obtain ⟨rfl, h2⟩ := h
      have hres := ih (fun hm => ha (List.mem_cons_of_mem _ hm))
        (fun hm => hc (List.mem_cons_of_mem _ hm)) h2
      exact ⟨by rw [hres.1], hres.2⟩

theorem needsEAKey_inj {r1 t1 r2 t2 : String}
    (h1 : '|' ∉ r1.data) (h2 : '|' ∉ r2.data)
    (h : needsEAKey r1 t1 = needsEAKey r2 t2) : r1 = r2 ∧ t1 = t2 := by
  unfold needsEAKey at h
  have hd := congrArg String.data h
  simp only [String.data_append] at hd
  simp only [List.append_assoc, List.singleton_append] at hd
  have hres := pipe_append_inj h1 h2 hd
  refine ⟨?_, ?_⟩
  · cases r1
    cases r2
    exact congrArg String.mk hres.1
  · cases t1
    cases t2
    exact congrArg String.mk hres.2

theorem needsEAFold_eq (acc : List String × List NeedsEAEntry)
    (row : ReportRow) :
    needsEAFold acc row =
      if needsEAQualifies row then
        (if needsEAKeyOf (needsEAEntryOf row) ∈ acc.1 then acc
         else (acc.1 ++ [needsEAKeyOf (needsEAEntryOf row)],
               acc.2 ++ [needsEAEntryOf row]))
      else acc := by
  unfold needsEAFold needsEAQualifies needsEAEntryOf needsEAKeyOf rowTypeD
  rfl

theorem needsEAFold_inv_step (acc : List String × List NeedsEAEntry)
    (row : ReportRow)
    (hinv : ∀ k, k ∈ acc.1 ↔ ∃ e ∈ acc.2, needsEAKeyOf e = k) :
    ∀ k, k ∈ (needsEAFold acc row).1 ↔
      ∃ e ∈ (needsEAFold acc row).2, needsEAKeyOf e = k := by
  intro k
  rw [needsEAFold_eq]
  split
  · split
    · exact hinv k
    · simp only [List.mem_append, List.mem_singleton, hinv k]
      constructor
      · rintro (⟨e, he, hk⟩ | rfl)
        · exact ⟨e, Or.inl he, hk⟩
        · exact ⟨needsEAEntryOf row, Or.inr rfl, rfl⟩
      · rintro ⟨e, he | rfl, hk⟩
        · exact Or.inl ⟨e, he, hk⟩
        · exact Or.inr hk.symm
  · exact hinv k

theorem needsEA_fold_invariants : ∀ (rows : List ReportRow)
    (acc : List String × List NeedsEAEntry),
    (∀ k, k ∈ acc.1 ↔ ∃ e ∈ acc.2, needsEAKeyOf e = k) → acc.2.Nodup →
    ((∀ k, k ∈ (rows.foldl needsEAFold acc).1 ↔
        ∃ e ∈ (rows.foldl needsEAFold acc).2, needsEAKeyOf e = k) ∧
      (rows.foldl needsEAFold acc).2.Nodup) := by
  intro rows
  induction rows with
  | nil => exact fun acc hinv hnd => ⟨hinv, hnd⟩
  | cons r rest ih =>
    intro acc hinv hnd
    refine ih _ (needsEAFold_inv_step acc r hinv) ?_
    rw [needsEAFold_eq]
    split
    · split
      · exact hnd
      · rename_i hq hk
        rw [List.nodup_append]
        refine ⟨hnd, List.nodup_singleton _, ?_⟩
        intro e he hmem
        rw [List.mem_singleton] at hmem
        subst hmem
        exact hk ((hinv _).mpr ⟨_, he, rfl⟩)
    · exact hnd

theorem needsEA_entries_sub : ∀ (rows : List ReportRow)
    (acc : List String × List NeedsEAEntry) (e : NeedsEAEntry),
    e ∈ (rows.foldl needsEAFold acc).2 →
    e ∈ acc.2 ∨ ∃ row ∈ rows, needsEAQualifies row = true ∧
      needsEAEntryOf row = e := by
  intro rows
  induction rows with
  | nil => exact fun acc e he => Or.inl he
  | cons r rest ih =>
    intro acc e he
    rcases ih _ e he with hacc | ⟨row, hr, hq, heq⟩
    · rw [needsEAFold_eq] at hacc
      split at hacc
      · rename_i hq
        split at hacc
        · exact Or.inl hacc
        · rcases List.mem_append.mp hacc with h | h
          · exact Or.inl h
          · rw [List.mem_singleton] at h
            exact Or.inr ⟨r, List.mem_cons_self r rest, hq, h.symm⟩
      · exact Or.inl hacc
    · exact Or.inr ⟨row, List.mem_cons_of_mem r hr, hq, heq⟩

theorem needsEA_entries_mono : ∀ (rows : List ReportRow)
    (acc : List String × List NeedsEAEntry) (e : NeedsEAEntry),
    e ∈ acc.2 → e ∈ (rows.foldl needsEAFold acc).2 := by
  intro rows
  induction rows with
  | nil => exact fun acc e he => he
  | cons r rest ih =>
    intro acc e he
    refine ih _ e ?_
    rw [needsEAFold_eq]
    split
    · split
      · exact he
      · exact List.mem_append.mpr (Or.inl he)
    · exact he

theorem needsEA_entries_complete : ∀ (rows : List ReportRow)
    (acc : List String × List NeedsEAEntry),
    (∀ k, k ∈ acc.1 ↔ ∃ e ∈ acc.2, needsEAKeyOf e = k) →
    (∀ e ∈ acc.2, '|' ∉ e.fordRecallNumber.data) →
    (∀ row ∈ rows, '|' ∉ row.fordRecallNumber.data) →
    ∀ row ∈ rows, needsEAQualifies row = true →
      needsEAEntryOf row ∈ (rows.foldl needsEAFold acc).2 := by
  intro rows
  induction rows with
  | nil => exact fun acc _ _ _ row hr => absurd hr (List.not_mem_nil row)
  | cons r rest ih =>
    intro acc hinv hpf hrows row hr hq
    have hinv' := needsEAFold_inv_step acc r hinv
    have hpf' : ∀ e ∈ (needsEAFold acc r).2, '|' ∉ e.fordRecallNumber.data := by
      intro e he
      rw [needsEAFold_eq] at he
      split at he
      · split at he
        · exact hpf e he
        · rcases List.mem_append.mp he with h | h
          · exact hpf e h
          · rw [List.mem_singleton] at h
            subst h
            exact hrows r (List.mem_cons_self r rest)
      · exact hpf e he
    rcases List.mem_cons.mp hr with rfl | hr'
    · refine needsEA_entries_mono rest _ _ ?_
      rw [needsEAFold_eq]
      rw [if_pos hq]
      split
      · rename_i hk
        obtain ⟨e, he, hke⟩ := (hinv _).mp hk
        have hepf := hpf e he
        have hrpf := hrows row (List.mem_cons_self row rest)
        have hinj := needsEAKey_inj hepf hrpf hke
        have he2 : e = needsEAEntryOf row := by
          obtain ⟨ern, ert⟩ := e
          simp only [needsEAEntryOf]
          simp only at hinj
          exact congrArg₂ NeedsEAEntry.mk hinj.1 hinj.2
        rw [← he2]
        exact he
      · exact List.mem_append.mpr (Or.inr (List.mem_singleton.mpr rfl))
    · exact ih _ hinv' hpf'
        (fun row' hrow' => hrows row' (List.mem_cons_of_mem r hrow')) row hr' hq

/-- C7, counterexample: two affected report rows share recall number 24V684
(type Recall) and both lack an EA number, but the Needs EA output contains a
single two-column entry — it does not list the affected (asset, VIN, station)
rows, appends no subtotal or grand-total rows, and there is a single "Needs
EA" sheet rather than one view per recall type. -/
theorem c7_counterexample :
    hasNoEA c7Row1 = true ∧ hasNoEA c7Row2 = true ∧ c7Row1 ≠ c7Row2 ∧
    needsEAData c7Rows = [⟨"24V684", "Recall"⟩] ∧
    (c7Rows.filter hasNoEA).length = 2 ∧
    "Needs EA (Recalls)" ∉ outputSheetNames ∧
    "Needs EA (Satisfaction)" ∉ outputSheetNames ∧
    outputSheetNames.count "Needs EA" = 1 := by
  decide

/-- C7, amended: the Needs EA output is a single view (one "Needs EA" sheet,
not split by recall type) whose entries are exactly the distinct (recall
number, type) pairs of the report rows lacking an EA number (EA field empty or
NONE) with a non-empty recall number; each entry carries only those two
fields, with no per-row asset/VIN/station listing and no subtotal or
grand-total rows.  (Recall numbers are assumed free of the literal "|", the
dedup-key separator.) -/
theorem c7_amended (rows : List ReportRow)
    (hpipe : ∀ row ∈ rows, '|' ∉ row.fordRecallNumber.data) :
    (needsEAData rows).Nodup ∧
    ∀ e : NeedsEAEntry, e ∈ needsEAData rows ↔
      ∃ row ∈ rows, needsEAQualifies row = true ∧ e = needsEAEntryOf row := by
  have base_inv : ∀ k, k ∈ (([], []) :
      List String × List NeedsEAEntry).1 ↔
      ∃ e ∈ (([], []) : List String × List NeedsEAEntry).2,
        needsEAKeyOf e = k := by
    simp
  have hinv := needsEA_fold_invariants rows ([], []) base_inv List.nodup_nil
  constructor
  · unfold needsEAData
    rw [(jsSort_perm needsEALe (needsEADataPre rows)).nodup_iff]
    exact hinv.2
  · intro e
    unfold needsEAData
    rw [mem_jsSort]
    unfold needsEADataPre
    constructor
    · intro hm
      rcases needsEA_entries_sub rows ([], []) e hm with h | ⟨row, hr, hq, he⟩
      · simp at h
      · exact ⟨row, hr, hq, he.symm⟩
    · rintro ⟨row, hr, hq, rfl⟩
      exact needsEA_entries_complete rows ([], []) base_inv (by simp) hpipe
        row hr hq

/-- C7 amended, witness: two qualifying rows sharing (24V684, Recall) yield
that single entry in the Needs EA view. -/
theorem c7_witness :
    (∀ row ∈ c7Rows, '|' ∉ row.fordRecallNumber.data) ∧
    ⟨"24V684", "Recall"⟩ ∈ needsEAData c7Rows :=
  ⟨by decide,
   ((c7_amended c7Rows (by decide)).2 ⟨"24V684", "Recall"⟩).mpr
     ⟨c7Row1, by decide, by decide, by decide⟩⟩

/-! ### Claim C1 -/

/-- C1, counterexample: with 101 distinct valid recall numbers collected
across successfully scraped VINs, the Registry phase executes, the proactive
browser restart after the 100th lookup succeeds but finds the session signed
out, and the loop stops: number R100 is a distinct valid recall number yet
receives zero searchVinData calls, refuting "invoked exactly once per
distinct valid recall number". -/
theorem c1_counterexample :
    (uniqueRecallsOf c1cxResults).length = 101 ∧
    (registryCalls true true c1cxLookup (fun _ => true) (fun _ => false)
      c1cxResults).length = 100 ∧
    "R100" ∈ uniqueRecallsOf c1cxResults ∧
    "R100" ∉ registryCalls true true c1cxLookup (fun _ => true)
      (fun _ => false) c1cxResults := by
  decide

/-- C1, amended: the Registry lookups of a run are pairwise-distinct recall
numbers drawn from the distinct valid recall numbers collected across all
successfully scraped VINs — no number is ever looked up twice and the number
of calls never exceeds the number of distinct recall numbers, no matter how
many (VIN, recall) pairs share a number; and when the Registry phase executes
with mid-phase authentication never lost, every distinct valid recall number
is looked up exactly once. -/
theorem c1_amended (dsInit authOk : Bool) (lookupEa : String → EaInfo)
    (reinitOk signedIn : Nat → Bool) (results : List VinResult) :
    (registryCalls dsInit authOk lookupEa reinitOk signedIn results).Nodup ∧
    (∀ n ∈ registryCalls dsInit authOk lookupEa reinitOk signedIn results,
      n ∈ uniqueRecallsOf results) ∧
    (registryCalls dsInit authOk lookupEa reinitOk signedIn results).length ≤
      (uniqueRecallsOf results).length ∧
    (∀ n : String,
      (registryCalls dsInit authOk lookupEa reinitOk signedIn
        results).count n ≤ 1) ∧
    ((dsInit && authOk) = true → (∀ k, signedIn k = true) →
      registryCalls dsInit authOk lookupEa reinitOk signedIn results =
        uniqueRecallsOf results ∧
      ∀ n ∈ uniqueRecallsOf results,
        (registryCalls dsInit authOk lookupEa reinitOk signedIn
          results).count n = 1) := by
  by_cases hauth : (dsInit && authOk) = true
  · unfold registryCalls
    rw [if_pos hauth]
    obtain ⟨t, ht⟩ := phase3Go_eats lookupEa reinitOk signedIn dsInit
      (uniqueRecallsOf results).length (uniqueRecallsOf results) 0
    have hnodup_all : ((phase3Go lookupEa reinitOk signedIn dsInit
        (uniqueRecallsOf results).length (uniqueRecallsOf results) 0).1
          ++ t).Nodup := by
      rw [ht]
      exact uniqueRecallsOf_nodup results
    have hnd := hnodup_all.of_append_left
    refine ⟨hnd, ?_, ?_, ?_, ?_⟩
    · intro n hn
      rw [← ht]
      exact List.mem_append.mpr (Or.inl hn)
    · have hlen := congrArg List.length ht
      rw [List.length_append] at hlen
      omega
    · exact fun n => List.nodup_iff_count_le_one.mp hnd n
    · intro _ hs
      have hcomplete := phase3Go_complete lookupEa reinitOk signedIn dsInit
        (uniqueRecallsOf results).length hs (uniqueRecallsOf results) 0
      refine ⟨hcomplete, ?_⟩
      intro n hn
      have hmem : n ∈ (phase3Go lookupEa reinitOk signedIn dsInit
          (uniqueRecallsOf results).length (uniqueRecallsOf results) 0).1 := by
        rw [hcomplete]
        exact hn
      have h1 := List.nodup_iff_count_le_one.mp hnd n
      have h2 := List.count_pos_iff.mpr hmem
      omega
  · unfold registryCalls
    rw [if_neg hauth]
    refine ⟨List.nodup_nil, ?_, ?_, ?_, ?_⟩
    · intro n hn
      exact absurd hn (List.not_mem_nil n)
    · simp
    · simp
    · intro h
      exact absurd h hauth

/-- C1 amended, witness: two successfully scraped VINs sharing recall 24V684
(three (VIN, recall) pairs, two distinct numbers) and authentication retained:
the Registry is called exactly on the two distinct numbers. -/
theorem c1_witness :
    registryCalls true true c1cxLookup (fun _ => true) (fun _ => true)
      c1wResults = uniqueRecallsOf c1wResults ∧
    uniqueRecallsOf c1wResults = ["24V684", "23V001"] :=
  ⟨((c1_amended true true c1cxLookup (fun _ => true) (fun _ => true)
      c1wResults).2.2.2.2 rfl (fun _ => rfl)).1,
   by decide⟩

/-! ### Claim C9 -/

theorem scrapeOneVin_of_fail {attempt : Nat → AttemptOutcome}
    {restart : Nat → RestartOutcome} {m : String}
    (h : attemptFailureMsg (attempt 0) = some m) :
    scrapeOneVin attempt restart = afterFirstFailure attempt restart m := by
  unfold scrapeOneVin
  cases h0 : attempt 0 with
  | resolved fd =>
    simp only [attemptFailureMsg, h0] at h
    by_cases hs : fd.success = true
    · simp [hs] at h
    · rw [Bool.not_eq_true] at hs
      simp only [hs, Bool.false_eq_true, if_false, Option.some.injEq] at h
      subst h
      simp [hs]
  | raised m' =>
    simp only [attemptFailureMsg, h0, Option.some.injEq] at h
    subst h
    rfl

theorem scrapeOneVin_of_success {attempt : Nat → AttemptOutcome}
    {restart : Nat → RestartOutcome}
    (h : attemptFailureMsg (attempt 0) = none) :
    (scrapeOneVin attempt restart).2 = 1 := by
  unfold scrapeOneVin
  cases h0 : attempt 0 with
  | resolved fd =>
    simp only [attemptFailureMsg, h0] at h
    by_cases hs : fd.success = true
    · simp [hs]
    · rw [Bool.not_eq_true] at hs
      simp [hs] at h
  | raised m' => simp [attemptFailureMsg, h0] at h

theorem secondAttempt_snd (attempt : Nat → AttemptOutcome) :
    (secondAttempt attempt).2 = 2 := by
  unfold secondAttempt
  cases attempt 1 with
  | resolved fd =>
    dsimp only
    by_cases hs : fd.success = true
    · simp [hs]
    · rw [Bool.not_eq_true] at hs
      simp [hs]
  | raised m => rfl

/-- C9: for every VIN, the Phase 1 orchestrator performs at most one retry of
the Primary Source lookup (at most two scrapeVinRecallData calls); a second
call happens only when the first failure message matches the narrow
needs-session-restart classification (missing VIN input field or
NS_ERROR_ABORT) and the browser restart succeeded; a restart that fails to
initialize or throws is terminal for that VIN with no second attempt, and a
non-retriable failure goes straight to a terminal failure with no retry. -/
theorem c9_retry_policy (attempt : Nat → AttemptOutcome)
    (restart : Nat → RestartOutcome) :
    (scrapeOneVin attempt restart).2 ≤ 2 ∧
    ((scrapeOneVin attempt restart).2 = 2 →
      ∃ m, attemptFailureMsg (attempt 0) = some m ∧
        needsBrowserRestart m = true ∧ restart 0 = .restarted) ∧
    (∀ m, attemptFailureMsg (attempt 0) = some m →
      needsBrowserRestart m = false →
      scrapeOneVin attempt restart = (orchFailData m, 1)) ∧
    (∀ m, attemptFailureMsg (attempt 0) = some m →
      needsBrowserRestart m = true → restart 0 = .initFailed →
      scrapeOneVin attempt restart =
        (orchFailData ("Failed to restart browser after error: " ++ m), 1)) ∧
    (∀ m rm, attemptFailureMsg (attempt 0) = some m →
      needsBrowserRestart m = true → restart 0 = .raised rm →
      scrapeOneVin attempt restart =
        (orchFailData ("Browser restart failed: " ++ rm), 1)) ∧
    (attemptFailureMsg (attempt 0) = none →
      (scrapeOneVin attempt restart).2 = 1) := by
  refine ⟨?_, ?_, ?_, ?_, ?_, fun h => scrapeOneVin_of_success h⟩
  · cases hm : attemptFailureMsg (attempt 0) with
    | none => rw [scrapeOneVin_of_success hm]; omega
    | some m =>
      rw [scrapeOneVin_of_fail hm]
      unfold afterFirstFailure
      by_cases hr : needsBrowserRestart m = true
      · rw [if_pos hr]
        cases restart 0 with
        | restarted =>
          dsimp only
          rw [secondAttempt_snd]
        | initFailed =>
          dsimp only
          omega
        | raised rm =>
          dsimp only
          omega
      · rw [Bool.not_eq_true] at hr
        simp [hr]
  · intro h2
    cases hm : attemptFailureMsg (attempt 0) with
    | none =>
      rw [scrapeOneVin_of_success hm] at h2
      omega
    | some m =>
      rw [scrapeOneVin_of_fail hm] at h2
      unfold afterFirstFailure at h2
      by_cases hr : needsBrowserRestart m = true
      · rw [if_pos hr] at h2
        cases hrr : restart 0 with
        | restarted => exact ⟨m, rfl, hr, rfl⟩
        | initFailed =>
          rw [hrr] at h2
          dsimp only at h2
          omega
        | raised rm =>
          rw [hrr] at h2
          dsimp only at h2
          omega
      · rw [Bool.not_eq_true] at hr
        simp [hr] at h2
  · intro m hm hr
    rw [scrapeOneVin_of_fail hm]
    unfold afterFirstFailure
    simp [hr]
  · intro m hm hr hrr
    rw [scrapeOneVin_of_fail hm]
    unfold afterFirstFailure
    simp [hr, hrr]
  · intro m rm hm hr hrr
    rw [scrapeOneVin_of_fail hm]
    unfold afterFirstFailure
    simp [hr, hrr]

/-- C9, witness: a non-retriable failure is terminal after one attempt, and a
retriable failure with a successful restart yields exactly two attempts. -/
theorem c9_witness :
    scrapeOneVin c9wAttemptPlain c9wRestartOk =
      (orchFailData "Some page layout error", 1) ∧
    (scrapeOneVin c9wAttemptRetriable c9wRestartOk).2 = 2 ∧
    (∃ m, attemptFailureMsg (c9wAttemptRetriable 0) = some m ∧
      needsBrowserRestart m = true ∧ c9wRestartOk 0 = .restarted) :=
  ⟨(c9_retry_policy c9wAttemptPlain c9wRestartOk).2.2.1
      "Some page layout error" (by decide) (by decide),
   by decide,
   (c9_retry_policy c9wAttemptRetriable c9wRestartOk).2.1 (by decide)⟩

/-! ### Claim C4 -/

theorem lookup_any {β : Type} {k : String} {m : List (String × β)} {x : β}
    (h : List.lookup k m = some x) :
    m.any (fun kv => kv.1 == k) = true := by
  induction m with
  | nil => simp at h
  | cons a l ih =>
    obtain ⟨ka, va⟩ := a
    rw [List.lookup_cons] at h
    by_cases hk : k = ka
    · subst hk
      simp
    · have hbeq : (k == ka) = false := by simp [hk]
      rw [hbeq] at h
      have hbeq2 : (ka == k) = false := by simp [Ne.symm hk]
      simp only [List.any_cons, hbeq2, Bool.false_or]
      exact ih h

theorem jsMapSet_keys {α : Type} (m : List (String × α)) (k : String) (v : α)
    (hk : m.any (fun kv => kv.1 == k) = true) :
    (jsMapSet m k v).map Prod.fst = m.map Prod.fst := by
  unfold jsMapSet
  rw [if_pos hk, List.map_map]
  apply List.map_congr_left
  intro kv _
  by_cases h : kv.1 = k
  · simp [h]
  · simp [h]

theorem jsMapSet_vin_invariant (m : List (String × VinEntry)) (k : String)
    (v : VinEntry) (hvk : v.vin = k)
    (hm : ∀ kv ∈ m, kv.2.vin = kv.1) :
    ∀ kv ∈ jsMapSet m k v, kv.2.vin = kv.1 := by
  unfold jsMapSet
  split
  · intro kv hkv
    obtain ⟨kv', hkv', heq⟩ := List.mem_map.mp hkv
    by_cases h : (kv'.1 == k) = true
    · rw [if_pos h] at heq
      rw [← heq]
      exact hvk
    · rw [Bool.not_eq_true] at h
      rw [if_neg (by simp [h])] at heq
      rw [← heq]
      exact hm kv' hkv'
  · intro kv hkv
    rcases List.mem_append.mp hkv with h | h
    · exact hm kv h
    · rw [List.mem_singleton] at h
      subst h
      exact hvk

theorem vinMap_invariants (hostParse : String → Option Int)
    (rows : List Row) :
    ((vinMapOf hostParse rows).map Prod.fst).Nodup ∧
    ∀ kv ∈ vinMapOf hostParse rows, kv.2.vin = kv.1 := by
  have key : ∀ (rs : List Row) (m : List (String × VinEntry)),
      (m.map Prod.fst).Nodup → (∀ kv ∈ m, kv.2.vin = kv.1) →
      (((rs.foldl (dedupStep hostParse) m).map Prod.fst).Nodup ∧
        ∀ kv ∈ rs.foldl (dedupStep hostParse) m, kv.2.vin = kv.1) := by
    intro rs
    induction rs with
    | nil => exact fun m h1 h2 => ⟨h1, h2⟩
    | cons row rest ih =>
      intro m h1 h2
      rw [List.foldl_cons]
      have hstep : ((dedupStep hostParse m row).map Prod.fst).Nodup ∧
          ∀ kv ∈ dedupStep hostParse m row, kv.2.vin = kv.1 := by
        unfold dedupStep
        cases hv : rowVinAuto row with
        | none =>
          dsimp only
          exact ⟨h1, h2⟩
        | some v =>
          dsimp only
          cases hl : List.lookup v m with
          | some existing =>
            have hany := lookup_any hl
            have hset : ((jsMapSet m v
                  ⟨v, row, getDateFromRow hostParse row⟩).map Prod.fst).Nodup ∧
                ∀ kv ∈ jsMapSet m v ⟨v, row, getDateFromRow hostParse row⟩,
                  kv.2.vin = kv.1 := by
              constructor
              · rw [jsMapSet_keys m v _ hany]
                exact h1
              · exact jsMapSet_vin_invariant m v _ rfl h2
            dsimp only
            cases hd : getDateFromRow hostParse row with
            | none =>
              cases existing.dateInfo with
              | none => exact ⟨h1, h2⟩
              | some ex => exact ⟨h1, h2⟩
            | some cur =>
              rw [hd] at hset
              cases existing.dateInfo with
              | none => exact hset
              | some ex =>
                dsimp only
                split
                · exact hset
                · exact ⟨h1, h2⟩
          | none =>
            dsimp only
            constructor
            · rw [List.map_append]
              rw [List.nodup_append]
              refine ⟨h1, List.nodup_singleton v, ?_⟩
              intro a ha hmem
              rw [List.map_singleton, List.mem_singleton] at hmem
              subst hmem
              obtain ⟨kv, hkv, hfst⟩ := List.mem_map.mp ha
              rw [lookup_eq_none_iff] at hl
              exact hl kv hkv hfst
            · intro kv hkv
              rcases List.mem_append.mp hkv with h | h
              · exact h2 kv h
              · rw [List.mem_singleton] at h
                subst h
                rfl
      exact ih _ hstep.1 hstep.2
  exact key rows [] List.nodup_nil (by simp)

theorem dedupStep_nil (hostParse : String → Option Int) (row : Row)
    (v : String) (hv : rowVinAuto row = some v) :
    dedupStep hostParse [] row =
      [(v, ⟨v, row, getDateFromRow hostParse row⟩)] := by
  unfold dedupStep
  rw [hv]
  rfl

theorem dedupStep_dup (hostParse : String → Option Int) (v : String)
    (e : VinEntry) (row : Row) (hv : rowVinAuto row = some v) :
    dedupStep hostParse [(v, e)] row =
      match getDateFromRow hostParse row, e.dateInfo with
      | some cur, some ex =>
        if ex < cur then [(v, ⟨v, row, getDateFromRow hostParse row⟩)]
        else [(v, e)]
      | some _, none => [(v, ⟨v, row, getDateFromRow hostParse row⟩)]
      | none, some _ => [(v, e)]
      | none, none => [(v, e)] := by
  unfold dedupStep
  rw [hv]
  dsimp only
  have hl : List.lookup v [(v, e)] = some e := by
    simp [List.lookup_cons]
  rw [hl]
  dsimp only
  have hms : ∀ d, jsMapSet [(v, e)] v ⟨v, row, d⟩ = [(v, ⟨v, row, d⟩)] := by
    intro d
    simp [jsMapSet]
  cases hd : getDateFromRow hostParse row with
  | none =>
    cases e.dateInfo with
    | none => rfl
    | some ex => rfl
  | some cur =>
    cases e.dateInfo with
    | none => exact hms (some cur)
    | some ex =>
      dsimp only
      split
      · exact hms (some cur)
      · rfl

/-- C4: the extractor keeps exactly one record per VIN (the extracted
(vin, row) list has pairwise distinct VINs), and the duplicate tie-break is
the one claimed: with two rows carrying the same VIN, a later parseable
opened-date wins in either input order, a dated row beats an undated one in
either order, and with no parseable date on either side the first-seen row is
retained. -/
theorem c4_dedup_tiebreak (hostParse : String → Option Int) :
    (∀ rows : List Row,
      ((extractVinsAuto hostParse rows).map Prod.fst).Nodup) ∧
    ∀ r1 r2 : Row, ∀ v : String,
      rowVinAuto r1 = some v → rowVinAuto r2 = some v →
      ((∀ d1 ∈ getDateFromRow hostParse r1,
          ∀ d2 ∈ getDateFromRow hostParse r2, d1 < d2) →
        (getDateFromRow hostParse r1).isSome = true →
        (getDateFromRow hostParse r2).isSome = true →
        extractVinsAuto hostParse [r1, r2] = [(v, r2)] ∧
        extractVinsAuto hostParse [r2, r1] = [(v, r2)]) ∧
      ((getDateFromRow hostParse r1).isSome = true →
        getDateFromRow hostParse r2 = none →
        extractVinsAuto hostParse [r1, r2] = [(v, r1)] ∧
        extractVinsAuto hostParse [r2, r1] = [(v, r1)]) ∧
      (getDateFromRow hostParse r1 = none →
        getDateFromRow hostParse r2 = none →
        extractVinsAuto hostParse [r1, r2] = [(v, r1)] ∧
        extractVinsAuto hostParse [r2, r1] = [(v, r2)]) := by
  constructor
  · intro rows
    unfold extractVinsAuto
    rw [List.map_map]
    have hpt := (vinMap_invariants hostParse rows).2
    rw [List.map_congr_left (l := vinMapOf hostParse rows)
      (f := Prod.fst ∘ fun kv => (kv.2.vin, kv.2.originalRow))
      (g := Prod.fst) (fun kv hkv => hpt kv hkv)]
    exact (vinMap_invariants hostParse rows).1
  · intro r1 r2 v h1 h2
    have base : ∀ (ra rb : Row), rowVinAuto ra = some v → rowVinAuto rb = some v →
        extractVinsAuto hostParse [ra, rb] =
          ((match getDateFromRow hostParse rb,
              getDateFromRow hostParse ra with
            | some cur, some ex =>
              if ex < cur then
                [(v, ⟨v, rb, getDateFromRow hostParse rb⟩)]
              else [(v, ⟨v, ra, getDateFromRow hostParse ra⟩)]
            | some _, none => [(v, ⟨v, rb, getDateFromRow hostParse rb⟩)]
            | none, some _ => [(v, ⟨v, ra, getDateFromRow hostParse ra⟩)]
            | none, none =>
              [(v, ⟨v, ra, getDateFromRow hostParse ra⟩)] :
              List (String × VinEntry)).map
                (fun kv => (kv.2.vin, kv.2.originalRow))) := by
      intro ra rb ha hb
      unfold extractVinsAuto vinMapOf
      rw [List.foldl_cons, List.foldl_cons, List.foldl_nil,
        dedupStep_nil hostParse ra v ha, dedupStep_dup hostParse v _ rb hb]
    refine ⟨?_, ?_, ?_⟩
    · intro hlt hs1 hs2
      obtain ⟨d1, hd1⟩ := Option.isSome_iff_exists.mp hs1
      obtain ⟨d2, hd2⟩ := Option.isSome_iff_exists.mp hs2
      have hdlt : d1 < d2 := hlt d1 (by rw [hd1]; rfl) d2 (by rw [hd2]; rfl)
      constructor
      · rw [base r1 r2 h1 h2, hd1, hd2]
        dsimp only
        rw [if_pos hdlt]
        rfl
      · rw [base r2 r1 h2 h1, hd1, hd2]
        dsimp only
        rw [if_neg (by omega)]
        rfl
    · intro hs1 hn2
      obtain ⟨d1, hd1⟩ := Option.isSome_iff_exists.mp hs1
      constructor
      · rw [base r1 r2 h1 h2, hd1, hn2]
        rfl
      · rw [base r2 r1 h2 h1, hd1, hn2]
        rfl
    · intro hn1 hn2
      constructor
      · rw [base r1 r2 h1 h2, hn1, hn2]
        rfl
      · rw [base r2 r1 h2 h1, hn1, hn2]
        rfl

/-- C4, witness: the duplicate-VIN example of the design document — two rows
with the same VIN dated 4/29/2021 and 5/1/2021 resolve to the later-dated row
in either input order. -/
theorem c4_witness :
    rowVinAuto exRowA = some "1FTFW1ET1EFA12345" ∧
    (getDateFromRow hostNone exRowA).isSome = true ∧
    (getDateFromRow hostNone exRowB).isSome = true ∧
    extractVinsAuto hostNone [exRowA, exRowB] =
      [("1FTFW1ET1EFA12345", exRowB)] ∧
    extractVinsAuto hostNone [exRowB, exRowA] =
      [("1FTFW1ET1EFA12345", exRowB)] :=
  ⟨by decide, by decide, by decide,
   (((c4_dedup_tiebreak hostNone).2 exRowA exRowB "1FTFW1ET1EFA12345"
      (by decide) (by decide)).1 (by decide) (by decide) (by decide)).1,
   (((c4_dedup_tiebreak hostNone).2 exRowA exRowB "1FTFW1ET1EFA12345"
      (by decide) (by decide)).1 (by decide) (by decide) (by decide)).2⟩

/-! ### Claim C3 -/

theorem countP_nodup (l : List String) (h : l.Nodup) (n : String) :
    l.countP (fun x => x == n) = if n ∈ l then 1 else 0 := by
  induction l with
  | nil => simp
  | cons a l ih =>
    rw [List.countP_cons]
    rw [List.nodup_cons] at h
    by_cases han : a = n
    · subst han
      have hnl : a ∉ l := h.1
      simp [ih h.2, hnl]
    · simp only [List.mem_cons]
      have hbeq : (a == n) = false := by simp [han]
      have hna : ¬ n = a := fun hh => han hh.symm
      simp [hbeq, ih h.2, hna]

theorem strong_any_iff_filter_ne_nil (recalls : List RecallEntry)
    (hcl : ∀ e ∈ recalls.filter recallIsValid,
      strTrim e.recallNumber = e.recallNumber) :
    ((!recalls.isEmpty && recalls.any (fun e =>
        e.recallNumber != "" && strTrim e.recallNumber != "" &&
        e.recallNumber != placeholder1 && e.recallNumber != placeholder2))
      = true)
      ↔ recalls.filter recallIsValid ≠ [] := by
  constructor
  · intro hb
    rw [Bool.and_eq_true] at hb
    obtain ⟨e, he, hstrong⟩ := List.any_eq_true.mp hb.2
    simp only [Bool.and_eq_true, bne_iff_ne, ne_eq] at hstrong
    have hval : recallIsValid e = true := by
      unfold recallIsValid
      simp only [Bool.and_eq_true, bne_iff_ne, ne_eq]
      exact ⟨⟨hstrong.1.1.1, hstrong.1.2⟩, hstrong.2⟩
    exact List.ne_nil_of_mem (List.mem_filter.mpr ⟨he, hval⟩)
  · intro hne
    obtain ⟨e, he⟩ := List.exists_mem_of_ne_nil _ hne
    have htr := hcl e he
    obtain ⟨hein, hval⟩ := List.mem_filter.mp he
    unfold recallIsValid at hval
    simp only [Bool.and_eq_true, bne_iff_ne, ne_eq] at hval
    rw [Bool.and_eq_true]
    constructor
    · rw [Bool.not_eq_true']
      rw [List.isEmpty_eq_false_iff_exists_mem]
      exact ⟨e, hein⟩
    · refine List.any_eq_true.mpr ⟨e, hein, ?_⟩
      simp only [Bool.and_eq_true, bne_iff_ne, ne_eq]
      refine ⟨⟨⟨hval.1.1, ?_⟩, hval.1.2⟩, hval.2⟩
      rw [htr]
      exact hval.1.1

/-- C3: for a scraped item whose recall list is well formed the way the Ford
scraper produces it (recall numbers pairwise distinct and free of surrounding
whitespace), the Recall Data sheet receives exactly one row per valid
(non-empty, non-sentinel) recall number of that item — each row being the
mkReportRow record carrying the item's vehicle metadata, that recall number,
its type and its EA number (defaulting to NONE) — and an item with zero valid
recall numbers contributes zero rows. -/
theorem c3_row_expansion (item : ScrapedItem)
    (hnd : ((validRecallsOf item).map (fun e => e.recallNumber)).Nodup)
    (hcl : ∀ e ∈ validRecallsOf item,
      strTrim e.recallNumber = e.recallNumber) :
    (validRecallsOf item = [] → rowsForItem item = []) ∧
    rowsForItem item = (validRecallsOf item).map (mkReportRow item) ∧
    ∀ n : String,
      ((rowsForItem item).countP (fun row => row.fordRecallNumber == n)) =
        if n ∈ (validRecallsOf item).map (fun e => e.recallNumber) then 1
        else 0 := by
  have hmap : rowsForItem item =
      (validRecallsOf item).map (mkReportRow item) := by
    obtain ⟨ivin, ifd, imap, irow⟩ := item
    cases ifd with
    | none => rfl
    | some fd =>
      obtain ⟨fsucc, ferr, frd⟩ := fd
      cases frd with
      | none => rfl
      | some recalls =>
        have hcl' : ∀ e ∈ recalls.filter recallIsValid,
            strTrim e.recallNumber = e.recallNumber := hcl
        have hvr : validRecallsOf
            ⟨ivin, some ⟨fsucc, ferr, some recalls⟩, imap, irow⟩ =
            recalls.filter recallIsValid := rfl
        unfold rowsForItem
        by_cases hb : hasRecallsB
            ⟨ivin, some ⟨fsucc, ferr, some recalls⟩, imap, irow⟩ = true
        · rw [if_pos hb]
        · rw [if_neg (by simp [hb])]
          have hb' : ((!recalls.isEmpty && recalls.any (fun e =>
              e.recallNumber != "" && strTrim e.recallNumber != "" &&
              e.recallNumber != placeholder1 &&
              e.recallNumber != placeholder2)) = true)
              ↔ recalls.filter recallIsValid ≠ [] :=
            strong_any_iff_filter_ne_nil recalls hcl'
          have hnil : recalls.filter recallIsValid = [] := by
            by_contra hne
            exact hb (hb'.mpr hne)
          rw [hvr, hnil]
          rfl
  refine ⟨?_, hmap, ?_⟩
  · intro hnil
    rw [hmap, hnil]
    rfl
  · intro n
    rw [hmap, List.countP_map]
    have hcomp : ((fun row => row.fordRecallNumber == n) ∘ mkReportRow item)
        = fun e => e.recallNumber == n := rfl
    rw [hcomp]
    have hcnt : (validRecallsOf item).countP (fun e => e.recallNumber == n)
        = ((validRecallsOf item).map (fun e => e.recallNumber)).countP
            (fun x => x == n) := by
      rw [List.countP_map]
      rfl
    rw [hcnt]
    exact countP_nodup _ hnd n

/-- C3, witness: an item with three distinct, trim-clean valid recall numbers
contributes exactly three rows, one of them for 24V684. -/
theorem c3_witness :
    ((validRecallsOf c3wItem).map (fun e => e.recallNumber)).Nodup ∧
    (∀ e ∈ validRecallsOf c3wItem,
      strTrim e.recallNumber = e.recallNumber) ∧
    (validRecallsOf c3wItem).length = 3 ∧
    (rowsForItem c3wItem).length = 3 ∧
    "24V684" ∈ (validRecallsOf c3wItem).map (fun e => e.recallNumber) ∧
    ((rowsForItem c3wItem).countP
        (fun row => row.fordRecallNumber == "24V684")) =
      if "24V684" ∈ (validRecallsOf c3wItem).map (fun e => e.recallNumber)
      then 1 else 0 :=
  ⟨by decide, by decide, by decide, by decide, by decide,
   (c3_row_expansion c3wItem (by decide) (by decide)).2.2 "24V684"⟩

/-! ### Claim C2 -/

theorem secondAttempt_shape (attempt : Nat → AttemptOutcome) :
    (secondAttempt attempt).1.success = true ∨
    (secondAttempt attempt).1.recallData = none := by
  unfold secondAttempt
  cases attempt 1 with
  | resolved fd =>
    dsimp only
    by_cases hs : fd.success = true
    · rw [if_pos hs]
      exact Or.inl hs
    · rw [Bool.not_eq_true] at hs
      rw [if_neg (by simp [hs])]
      exact Or.inr rfl
  | raised m => exact Or.inr rfl

theorem afterFirstFailure_shape (attempt : Nat → AttemptOutcome)
    (restart : Nat → RestartOutcome) (m : String) :
    (afterFirstFailure attempt restart m).1.success = true ∨
    (afterFirstFailure attempt restart m).1.recallData = none := by
  unfold afterFirstFailure
  split
  · cases restart 0 with
    | restarted => exact secondAttempt_shape attempt
    | initFailed => exact Or.inr rfl
    | raised rm => exact Or.inr rfl
  · exact Or.inr rfl

theorem scrapeOneVin_shape (attempt : Nat → AttemptOutcome)
    (restart : Nat → RestartOutcome) :
    (scrapeOneVin attempt restart).1.success = true ∨
    (scrapeOneVin attempt restart).1.recallData = none := by
  unfold scrapeOneVin
  cases attempt 0 with
  | resolved fd =>
    dsimp only
    by_cases hs : fd.success = true
    · rw [if_pos hs]
      exact Or.inl hs
    · rw [Bool.not_eq_true] at hs
      rw [if_neg (by simp [hs])]
      exact afterFirstFailure_shape attempt restart _
  | raised m => exact afterFirstFailure_shape attempt restart m

theorem runPhase1_shape (fordInit : Bool)
    (attempt : String → Nat → AttemptOutcome)
    (restart : String → Nat → RestartOutcome) (vins : List String)
    (r : VinResult) (hr : r ∈ runPhase1 fordInit attempt restart vins) :
    r.docsearchDataByRecall = [] ∧
    ∀ fd, r.fordData = some fd →
      (fd.success = true ∨ fd.recallData = none) := by
  obtain ⟨v, hv, heq⟩ := List.mem_map.mp hr
  subst heq
  unfold runPhase1Vin
  split
  · refine ⟨rfl, ?_⟩
    intro fd hfd
    simp only [Option.some.injEq] at hfd
    rw [← hfd]
    exact scrapeOneVin_shape (attempt v) (restart v)
  · exact ⟨rfl, fun fd hfd => by simp at hfd⟩

theorem isCollected_of_validNumbers (r : VinResult) (n : String)
    (hn : n ∈ validNumbers r) : isCollected r = true := by
  obtain ⟨rv, rfd, rmap⟩ := r
  cases rfd with
  | none => simp [validNumbers, collectedRecalls] at hn
  | some fd =>
    obtain ⟨s, e, rd⟩ := fd
    cases s with
    | false => simp [validNumbers, collectedRecalls] at hn
    | true =>
      cases rd with
      | none => simp [validNumbers, collectedRecalls] at hn
      | some recalls => rfl

theorem validNumbers_phase4 (uniq : List String)
    (dataMap : List (String × EaInfo)) (r : VinResult) :
    validNumbers (phase4Apply uniq dataMap r) = validNumbers r := by
  unfold phase4Apply
  split
  · rfl
  · rfl

theorem fordData_phase4 (uniq : List String)
    (dataMap : List (String × EaInfo)) (r : VinResult) :
    (phase4Apply uniq dataMap r).fordData = r.fordData := by
  unfold phase4Apply
  split
  · rfl
  · rfl

theorem phase4_lookup (uniq : List String)
    (dataMap : List (String × EaInfo)) (r : VinResult) (n : String)
    (hn : n ∈ validNumbers r) (hu : n ∈ uniq) :
    List.lookup n (phase4Apply uniq dataMap r).docsearchDataByRecall =
      some (resolveEa dataMap n) := by
  have hcol := isCollected_of_validNumbers r n hn
  unfold phase4Apply
  rw [if_pos hcol]
  dsimp only
  rw [lookup_map_pair]
  rw [if_pos (List.mem_filter.mpr ⟨hu, by simp [hn]⟩)]

theorem eaDisplay_of_lookup (m : List (String × EaInfo)) (n : String)
    (x : EaInfo) (h : List.lookup n m = some x) :
    eaDisplay m n =
      (match x.eaNumber with
        | some s => if s == "" then "NONE" else s
        | none => "NONE") := by
  unfold eaDisplay
  rw [h]

theorem mem_recallDataRows (items : List ScrapedItem) (row : ReportRow)
    (h : row ∈ recallDataRows items) :
    ∃ item ∈ items, ∃ e ∈ validRecallsOf item,
      row = mkReportRow item e := by
  obtain ⟨item, hitem, hrow⟩ := List.mem_flatMap.mp h
  unfold rowsForItem at hrow
  split at hrow
  · obtain ⟨e, he, heq⟩ := List.mem_map.mp hrow
    exact ⟨item, hitem, e, he, heq.symm⟩
  · simp at hrow

theorem validNumbers_of_valid_entry (r : VinResult) (item : ScrapedItem)
    (hfd : item.fordData = r.fordData)
    (hshape : ∀ fd, r.fordData = some fd →
      (fd.success = true ∨ fd.recallData = none))
    (e : RecallEntry) (he : e ∈ validRecallsOf item) :
    e.recallNumber ∈ validNumbers r := by
  obtain ⟨iv, ifd, imap, irow⟩ := item
  obtain ⟨rv, rfd, rmap⟩ := r
  simp only at hfd hshape
  subst hfd
  cases ifd with
  | none => simp [validRecallsOf] at he
  | some fd =>
    obtain ⟨s, err, rd⟩ := fd
    cases rd with
    | none => simp [validRecallsOf] at he
    | some recalls =>
      rcases hshape ⟨s, err, some recalls⟩ rfl with hs | habs
      · simp only at hs
        subst hs
        have he' : e ∈ recalls.filter recallIsValid := he
        exact List.mem_map.mpr ⟨e, he', rfl⟩
      · simp at habs

theorem registry_fanout_core (results1 : List VinResult)
    (vinRows : List (String × Row)) (uniq : List String)
    (dataMap : List (String × EaInfo))
    (hshape : ∀ r ∈ results1, ∀ fd, r.fordData = some fd →
      (fd.success = true ∨ fd.recallData = none))
    (huniq : ∀ r ∈ results1, ∀ n ∈ validNumbers r, n ∈ uniq) :
    (∀ r1 ∈ results1.map (phase4Apply uniq dataMap),
      ∀ r2 ∈ results1.map (phase4Apply uniq dataMap), ∀ n : String,
        n ∈ validNumbers r1 → n ∈ validNumbers r2 →
        List.lookup n r1.docsearchDataByRecall =
          List.lookup n r2.docsearchDataByRecall) ∧
    (∀ row1 ∈ recallDataRows
        (attachRows vinRows (results1.map (phase4Apply uniq dataMap))),
      ∀ row2 ∈ recallDataRows
        (attachRows vinRows (results1.map (phase4Apply uniq dataMap))),
        row1.fordRecallNumber = row2.fordRecallNumber →
        row1.eaNumber = row2.eaNumber) := by
  constructor
  · intro r1 hr1 r2 hr2 n hn1 hn2
    obtain ⟨s1, hs1, heq1⟩ := List.mem_map.mp hr1
    obtain ⟨s2, hs2, heq2⟩ := List.mem_map.mp hr2
    subst heq1
    subst heq2
    rw [validNumbers_phase4] at hn1 hn2
    rw [phase4_lookup uniq dataMap s1 n hn1 (huniq s1 hs1 n hn1),
      phase4_lookup uniq dataMap s2 n hn2 (huniq s2 hs2 n hn2)]
  · intro row1 hrow1 row2 hrow2 hsame
    obtain ⟨item1, hitem1, e1, he1, heq1⟩ :=
      mem_recallDataRows _ row1 hrow1
    obtain ⟨item2, hitem2, e2, he2, heq2⟩ :=
      mem_recallDataRows _ row2 hrow2
    obtain ⟨r1', hr1', hat1⟩ := List.mem_map.mp hitem1
    obtain ⟨r2', hr2', hat2⟩ := List.mem_map.mp hitem2
    obtain ⟨s1, hs1, heqr1⟩ := List.mem_map.mp hr1'
    obtain ⟨s2, hs2, heqr2⟩ := List.mem_map.mp hr2'
    have hfd1 : item1.fordData = r1'.fordData := by rw [← hat1]
    have hfd2 : item2.fordData = r2'.fordData := by rw [← hat2]
    have hmap1 : item1.docsearchDataByRecall =
        r1'.docsearchDataByRecall := by rw [← hat1]
    have hmap2 : item2.docsearchDataByRecall =
        r2'.docsearchDataByRecall := by rw [← hat2]
    have hshape1 : ∀ fd, r1'.fordData = some fd →
        (fd.success = true ∨ fd.recallData = none) := by
      intro fd hfd
      subst heqr1
      rw [fordData_phase4] at hfd
      exact hshape s1 hs1 fd hfd
    have hshape2 : ∀ fd, r2'.fordData = some fd →
        (fd.success = true ∨ fd.recallData = none) := by
      intro fd hfd
      subst heqr2
      rw [fordData_phase4] at hfd
      exact hshape s2 hs2 fd hfd
    have hn1 : e1.recallNumber ∈ validNumbers r1' :=
      validNumbers_of_valid_entry r1' item1 hfd1 hshape1 e1 he1
    have hn2 : e2.recallNumber ∈ validNumbers r2' :=
      validNumbers_of_valid_entry r2' item2 hfd2 hshape2 e2 he2
    have hl1 : List.lookup e1.recallNumber r1'.docsearchDataByRecall =
        some (resolveEa dataMap e1.recallNumber) := by
      subst heqr1
      rw [validNumbers_phase4] at hn1
      exact phase4_lookup uniq dataMap s1 _ hn1 (huniq s1 hs1 _ hn1)
    have hl2 : List.lookup e2.recallNumber r2'.docsearchDataByRecall =
        some (resolveEa dataMap e2.recallNumber) := by
      subst heqr2
      rw [validNumbers_phase4] at hn2
      exact phase4_lookup uniq dataMap s2 _ hn2 (huniq s2 hs2 _ hn2)
    have hrn1 : row1.fordRecallNumber = e1.recallNumber := by
      rw [heq1]
      rfl
    have hrn2 : row2.fordRecallNumber = e2.recallNumber := by
      rw [heq2]
      rfl
    have hea1 : row1.eaNumber =
        eaDisplay item1.docsearchDataByRecall e1.recallNumber := by
      rw [heq1]
      rfl
    have hea2 : row2.eaNumber =
        eaDisplay item2.docsearchDataByRecall e2.recallNumber := by
      rw [heq2]
      rfl
    have hnum : e1.recallNumber = e2.recallNumber := by
      rw [← hrn1, ← hrn2]
      exact hsame
    rw [hea1, hea2, hmap1, hmap2,
      eaDisplay_of_lookup _ _ _ hl1, eaDisplay_of_lookup _ _ _ hl2, hnum]

theorem registry_skipped_core (results1 : List VinResult)
    (vinRows : List (String × Row))
    (hempty : ∀ r ∈ results1, r.docsearchDataByRecall = []) :
    (∀ r1 ∈ results1, ∀ r2 ∈ results1, ∀ n : String,
        n ∈ validNumbers r1 → n ∈ validNumbers r2 →
        List.lookup n r1.docsearchDataByRecall =
          List.lookup n r2.docsearchDataByRecall) ∧
    (∀ row1 ∈ recallDataRows (attachRows vinRows results1),
      ∀ row2 ∈ recallDataRows (attachRows vinRows results1),
        row1.fordRecallNumber = row2.fordRecallNumber →
        row1.eaNumber = row2.eaNumber) := by
  constructor
  · intro r1 hr1 r2 hr2 n _ _
    rw [hempty r1 hr1, hempty r2 hr2]
  · intro row1 hrow1 row2 hrow2 _
    obtain ⟨item1, hitem1, e1, he1, heq1⟩ :=
      mem_recallDataRows _ row1 hrow1
    obtain ⟨item2, hitem2, e2, he2, heq2⟩ :=
      mem_recallDataRows _ row2 hrow2
    obtain ⟨r1', hr1', hat1⟩ := List.mem_map.mp hitem1
    obtain ⟨r2', hr2', hat2⟩ := List.mem_map.mp hitem2
    have hmap1 : item1.docsearchDataByRecall = [] := by
      rw [← hat1]
      exact hempty r1' hr1'
    have hmap2 : item2.docsearchDataByRecall = [] := by
      rw [← hat2]
      exact hempty r2' hr2'
    rw [heq1, heq2]
    show eaDisplay item1.docsearchDataByRecall e1.recallNumber =
      eaDisplay item2.docsearchDataByRecall e2.recallNumber
    rw [hmap1, hmap2]
    rfl

/-- C2: in any pipeline run, every VIN result whose valid recall list
contains a number n carries the same stored EaInfo value for n as any other
such result (the fan-out assigns one resolved value per number), and hence
any two Recall Data report rows carrying the same recall number show the same
EA number. -/
theorem c2_fanout_consistency (vins : List String)
    (vinRows : List (String × Row)) (fordInit : Bool)
    (attempt : String → Nat → AttemptOutcome)
    (restartO : String → Nat → RestartOutcome) (dsInit authOk : Bool)
    (lookupEa : String → EaInfo) (reinitOk signedIn : Nat → Bool) :
    (∀ r1 ∈ scrapeVinDataModel vins fordInit attempt restartO dsInit authOk
        lookupEa reinitOk signedIn,
      ∀ r2 ∈ scrapeVinDataModel vins fordInit attempt restartO dsInit authOk
        lookupEa reinitOk signedIn, ∀ n : String,
        n ∈ validNumbers r1 → n ∈ validNumbers r2 →
        List.lookup n r1.docsearchDataByRecall =
          List.lookup n r2.docsearchDataByRecall) ∧
    (∀ row1 ∈ recallDataRows (attachRows vinRows
        (scrapeVinDataModel vins fordInit attempt restartO dsInit authOk
          lookupEa reinitOk signedIn)),
      ∀ row2 ∈ recallDataRows (attachRows vinRows
        (scrapeVinDataModel vins fordInit attempt restartO dsInit authOk
          lookupEa reinitOk signedIn)),
        row1.fordRecallNumber = row2.fordRecallNumber →
        row1.eaNumber = row2.eaNumber) := by
  unfold scrapeVinDataModel registryPhase
  by_cases hauth : (dsInit && authOk) = true
  · rw [if_pos hauth]
    exact registry_fanout_core (runPhase1 fordInit attempt restartO vins)
      vinRows _ _
      (fun r hr => (runPhase1_shape fordInit attempt restartO vins r hr).2)
      (fun r hr n hn => mem_uniqueRecallsOf.mpr ⟨r, hr, hn⟩)
  · rw [if_neg hauth]
    exact registry_skipped_core (runPhase1 fordInit attempt restartO vins)
      vinRows
      (fun r hr => (runPhase1_shape fordInit attempt restartO vins r hr).1)

/-- C2, witness: a concrete two-VIN run sharing recall 24V684 produces two
report rows whose EA numbers coincide (both EA-100). -/
theorem c2_witness :
    c2wRows = [c2wRow1, c2wRow2] ∧
    c2wRow1 ∈ c2wRows ∧ c2wRow2 ∈ c2wRows ∧
    c2wRow1.fordRecallNumber = c2wRow2.fordRecallNumber ∧
    c2wRow1.eaNumber = c2wRow2.eaNumber :=
  ⟨by decide, by decide, by decide, by decide,
   (c2_fanout_consistency c2wVins [] true c2wAttempt c2wRestart true true
      c2wLookup (fun _ => true) (fun _ => true)).2
     c2wRow1 (by decide) c2wRow2 (by decide) (by decide)⟩

end RecallScript
